import Mathlib

/-!
# Alarm Monitoring Sensor: the classification and report engine of `src/main.cpp`

A shallow embedding of the sketch's global variables and of `before`, `loop`
and `receive`.  The target is an Arduino Nano (AVR): `int` is 16 bits wide,
`unsigned long` is 32 bits wide and `uint8_t` is 8 bits wide.  Signed overflow
of `blinks[index] += 1` is rendered as the two's complement wrap that the
16-bit addition of the target performs.

Everything the sketch does to the outside world through `digitalWrite`, `send`
and `saveState` is appended to `State.trace` in program order.  `Serial`
diagnostics, `pinMode` and `delay` are left out: they neither read nor write
any variable of the sketch.
-/

namespace AlarmMonitor

/-- The `enum alarm_status` of the sketch. -/
inductive alarm_status
  | Unknown
  | Desactivated
  | Blinking
  | Activated
  deriving DecidableEq

/-- Arduino pin level `LOW`. -/
def LOW : Int := 0

/-- Arduino pin level `HIGH`. -/
def HIGH : Int := 1

def Operation_Child_Id : Nat := 0
def Trigger_Child_Id : Nat := 1
def Bell_Child_Id : Nat := 2
def Maintenance_Child_Id : Nat := 3

def OperationFull_Led_Pin : Nat := 8
def OperationPartial_Led_Pin : Nat := 7
def Trigger_Led_Pin : Nat := 3
def Bell_Led_Pin : Nat := 4
def Maintenance_Led_Pin : Nat := 5

/-- The array `ledPins[LEDS]`. -/
def ledPins : List Nat :=
  [OperationFull_Led_Pin, OperationPartial_Led_Pin, Trigger_Led_Pin, Bell_Led_Pin,
    Maintenance_Led_Pin]

def REPORT_INTERVAL : Nat := 5000

/-- An effect of the sketch on its collaborators. -/
inductive Event
  | digitalWrite (pin : Nat) (value : Int)
  | send (sensor : Nat) (status : alarm_status)
  | saveState (pos : Nat) (value : Nat)
  deriving DecidableEq

/-- The global variables of the sketch, and the trace of its effects. -/
structure State where
  levelThresholds : Fin 4 → Nat
  states : Fin 4 → Int
  pending_states : Fin 4 → Int
  blinks : Fin 4 → Int
  lastLedOperation : alarm_status
  lastLedTrigger : alarm_status
  lastLedBell : alarm_status
  lastLedMaintenance : alarm_status
  loops : Nat
  next_print : Nat
  lastLedOperation_skip : Bool
  trace : List Event

/-- Value of a 16-bit `int` after an arithmetic result `x` is stored in it. -/
def wrapInt16 (x : Int) : Int := (x + 32768) % 65536 - 32768

/-- Value of a 32-bit `unsigned long` after `x` is stored in it. -/
def wrapULong (x : Nat) : Nat := x % 4294967296

/-- The globals as their initialisers leave them; `millis0` is what `millis()`
returns when `next_print` is initialised. -/
def initial (millis0 : Nat) : State where
  levelThresholds := fun _ => 70
  states := fun _ => 0
  pending_states := fun _ => 0
  blinks := fun _ => 0
  lastLedOperation := alarm_status.Unknown
  lastLedTrigger := alarm_status.Unknown
  lastLedBell := alarm_status.Unknown
  lastLedMaintenance := alarm_status.Unknown
  loops := 0
  next_print := wrapULong (millis0 + REPORT_INTERVAL)
  lastLedOperation_skip := true
  trace := []

/-- Body of the first `for` of `before` for one `index`; `loadState` is the
content of the configuration store. -/
def beforeChannel (loadState : Fin 4 → Nat) (index : Fin 4) (s : State) : State :=
  let levelThreshold : Nat := loadState index % 256
  let levelThreshold : Nat := if levelThreshold > 99 then 99 else levelThreshold
  let levelThreshold : Nat := if levelThreshold < 0 then 0 else levelThreshold
  { s with
    levelThresholds := Function.update s.levelThresholds index levelThreshold
    states := Function.update s.states index HIGH
    pending_states := Function.update s.pending_states index HIGH
    blinks := Function.update s.blinks index 0 }

/-- The pin writes of `before`: each output is pulsed, then the start-up blink. -/
def beforeWrites : List Event :=
  (ledPins.map fun pin => [Event.digitalWrite pin HIGH, Event.digitalWrite pin LOW]).flatten ++
    [Event.digitalWrite OperationPartial_Led_Pin HIGH,
     Event.digitalWrite OperationFull_Led_Pin LOW,
     Event.digitalWrite OperationFull_Led_Pin HIGH,
     Event.digitalWrite OperationFull_Led_Pin LOW,
     Event.digitalWrite OperationFull_Led_Pin HIGH]

/-- The function `before`. -/
def before (loadState : Fin 4 → Nat) (s : State) : State :=
  let s1 := ([0, 1, 2, 3] : List (Fin 4)).foldl (fun st index => beforeChannel loadState index st) s
  { s1 with trace := s1.trace ++ beforeWrites }

/-- The conversion of line 183, `(1023 - analogRead) / 10.23` stored in an
`int16_t`, read in exact arithmetic: the quotient is truncated toward zero. -/
def lightLevel (raw : Int) : Int := wrapInt16 (Int.tdiv ((1023 - raw) * 100) 1023)

/-- Lines 185-194 for one `index`, given the `lightLevel` just computed. -/
def sampleChannel (index : Fin 4) (lightLevel : Int) (s : State) : State :=
  let ledState : Int := if lightLevel < (s.levelThresholds index : Int) then LOW else HIGH
  if ledState ≠ s.states index then
    let s1 := { s with states := Function.update s.states index ledState }
    if ledState = LOW then
      { s1 with blinks := Function.update s1.blinks index (wrapInt16 (s1.blinks index + 1)) }
    else s1
  else s

/-- The first `for` of `loop`: every sensor is read and sampled once. -/
def samplingPass (analogRead : Fin 4 → Int) (s : State) : State :=
  ([0, 1, 2, 3] : List (Fin 4)).foldl
    (fun st index => sampleChannel index (lightLevel (analogRead index)) st) s

/-- The "led interpreter", lines 214-226: the value of `currentLedStatus`. -/
def ledInterpreter (s : State) (index : Fin 4) : alarm_status :=
  if s.blinks index > 1 then alarm_status.Blinking
  else if s.states index = LOW then alarm_status.Activated
  else alarm_status.Desactivated

/-- The inner `switch (currentLedStatus)` of case 0, lines 242-252. -/
def activateLeds (currentLedStatus : alarm_status) : List Event :=
  match currentLedStatus with
  | alarm_status.Blinking => [Event.digitalWrite OperationPartial_Led_Pin LOW]
  | alarm_status.Activated => [Event.digitalWrite OperationFull_Led_Pin LOW]
  | _ => []

/-- The `switch (index)` of lines 228-296. -/
def reportSwitch (index : Fin 4) (currentLedStatus : alarm_status) (s : State) : State :=
  match index.val with
  | 0 =>
    if currentLedStatus ≠ s.lastLedOperation then
      if s.lastLedOperation_skip then
        { s with lastLedOperation_skip := false }
      else
        { s with
          lastLedOperation_skip := true
          trace := s.trace ++
            [Event.digitalWrite OperationFull_Led_Pin HIGH,
             Event.digitalWrite OperationPartial_Led_Pin HIGH] ++
            activateLeds currentLedStatus ++
            [Event.send Operation_Child_Id currentLedStatus]
          lastLedOperation := currentLedStatus }
    else s
  | 1 =>
    if s.lastLedTrigger ≠ currentLedStatus then
      { s with
        trace := s.trace ++
          [Event.send Trigger_Child_Id currentLedStatus,
           Event.digitalWrite Trigger_Led_Pin
             (if currentLedStatus ≠ alarm_status.Desactivated then HIGH else LOW)]
        lastLedTrigger := currentLedStatus }
    else s
  | 2 =>
    if s.lastLedBell ≠ currentLedStatus then
      { s with
        trace := s.trace ++
          [Event.send Bell_Child_Id currentLedStatus,
           Event.digitalWrite Bell_Led_Pin
             (if currentLedStatus ≠ alarm_status.Desactivated then HIGH else LOW)]
        lastLedBell := currentLedStatus }
    else s
  | 3 =>
    if s.lastLedMaintenance ≠ currentLedStatus then
      { s with
        trace := s.trace ++
          [Event.send Maintenance_Child_Id currentLedStatus,
           Event.digitalWrite Maintenance_Led_Pin
             (if currentLedStatus ≠ alarm_status.Desactivated then HIGH else LOW)]
        lastLedMaintenance := currentLedStatus }
    else s
  | _ => s

/-- Body of the report `for`, lines 208-298, for one `index`. -/
def reportChannel (index : Fin 4) (s : State) : State :=
  let s1 := reportSwitch index (ledInterpreter s index) s
  { s1 with blinks := Function.update s1.blinks index 0 }

/-- The report `for` of lines 207-299: one resolution pass over all sensors. -/
def reportPass (s : State) : State :=
  ([0, 1, 2, 3] : List (Fin 4)).foldl (fun st index => reportChannel index st) s

/-- One call of `loop`; `analogRead` gives the raw reading of each sensor and
`millis` the clock value the call would read. -/
def loop (analogRead : Fin 4 → Int) (millis : Nat) (s : State) : State :=
  let s1 := samplingPass analogRead s
  let s2 := { s1 with loops := wrapULong (s1.loops + 1) }
  if s2.loops = 10000 then
    let s3 := { s2 with loops := 0 }
    if millis ≥ s3.next_print then
      reportPass { s3 with next_print := wrapULong (s3.next_print + REPORT_INTERVAL) }
    else s3
  else s2

/-- The last-reported status variable that belongs to sensor `index`. -/
def lastLed (s : State) (index : Fin 4) : alarm_status :=
  match index.val with
  | 0 => s.lastLedOperation
  | 1 => s.lastLedTrigger
  | 2 => s.lastLedBell
  | _ => s.lastLedMaintenance

/-- The sensor an effect belongs to: the child id of a `send`, the sensor
whose output pin a `digitalWrite` drives. -/
def Event.channel : Event → Option Nat
  | Event.send sensor _ => some sensor
  | Event.digitalWrite pin _ =>
    if pin = OperationFull_Led_Pin ∨ pin = OperationPartial_Led_Pin then some 0
    else if pin = Trigger_Led_Pin then some 1
    else if pin = Bell_Led_Pin then some 2
    else if pin = Maintenance_Led_Pin then some 3
    else none
  | Event.saveState _ _ => none

/-- The effects a step from `s` to `t` has added to the trace. -/
def emitted (s t : State) : List Event := t.trace.drop s.trace.length

/-- The added effects that belong to sensor `index`. -/
def emittedFor (index : Fin 4) (s t : State) : List Event :=
  (emitted s t).filter fun e => e.channel = some index.val

/-- Feeding a sequence of light levels to one sensor, one `loop` iteration each. -/
def feed (index : Fin 4) (levels : List Int) (s : State) : State :=
  levels.foldl (fun st level => sampleChannel index level st) s

/-- The state in which `loop` first runs when every stored threshold is 70
and the clock read 0 when the globals were initialised. -/
def startup70 : State := before (fun _ => 70) (initial 0)

/-- The edge count as the specification words it: the number of positions `i`
with `level i < t` whose predecessor satisfies `level ≥ t`; position 0 has the
initial signal for predecessor, which counts as such when `prevOn` holds. -/
def specEdgeCountFrom (t : Int) (prevOn : Bool) (levels : List Int) : Nat :=
  ((List.range levels.length).filter fun i =>
    decide (levels.getD i 0 < t) &&
      (if i = 0 then prevOn else decide (t ≤ levels.getD (i - 1) 0))).length

/-- The specification's edge count from the startup signal, which is ON. -/
def specEdgeCount (t : Int) (levels : List Int) : Nat := specEdgeCountFrom t true levels

/-- The statuses carried by the `send` events of `es` for sensor `index`. -/
def notificationsFor (index : Fin 4) (es : List Event) : List alarm_status :=
  es.filterMap fun e =>
    match e with
    | Event.send sensor status => if sensor = index.val then some status else none
    | _ => none

/-- The effects sensor `index` adds when the report pass handles it in `s`. -/
def reportEvents (index : Fin 4) (s : State) : List Event :=
  emitted s (reportChannel index s)

/-- The state after the first report pass from startup, in which sensors 1 to
3 have reported `Desactivated`. -/
def afterFirstPass : State := reportPass startup70

/-- The state after two report passes from startup, in which sensor 0 has
reported `Desactivated` too. -/
def afterSecondPass : State := reportPass afterFirstPass

/-- Consecutive calls of `loop`, each with its sensor readings and the clock
value it would read. -/
def run (inputs : List ((Fin 4 → Int) × Nat)) (s : State) : State :=
  inputs.foldl (fun st input => loop input.1 input.2 st) s

/-- The inputs of 10000 calls of `loop` under steady readings. -/
def window (analogRead : Fin 4 → Int) (millis : Nat) : List ((Fin 4 → Int) × Nat) :=
  List.replicate 10000 (analogRead, millis)

/-- One sampling pass followed by a report pass that the gate of `loop` lets
through: what a `window` amounts to when it starts with `loops` at 0 and the
clock has reached `next_print`. -/
def cycle (analogRead : Fin 4 → Int) (s : State) : State :=
  reportPass
    { samplingPass analogRead s with
      loops := 0
      next_print := wrapULong (s.next_print + REPORT_INTERVAL) }

/-- Raw readings under which every sensor's level is 100, above any threshold:
the signal is `HIGH`. -/
def readsOff : Fin 4 → Int := fun _ => 0

/-- Raw readings under which every sensor's level is 0, below threshold 70:
the signal is `LOW`. -/
def readsSteady : Fin 4 → Int := fun _ => 1023

/-- Two windows from startup under `readsOff`: sensor 0 has reported
`Desactivated` and its skip flag is set again. -/
def scenarioD0 : State := run (window readsOff 5000 ++ window readsOff 10000) startup70

/-- A third window, under `readsSteady`. -/
def scenarioD1 : State := run (window readsSteady 15000) scenarioD0

/-- A fourth window, under `readsSteady` again. -/
def scenarioD2 : State := run (window readsSteady 20000) scenarioD1

/-- A fourth window, under `readsOff`, after the third under `readsSteady`. -/
def flipBefore : State := run (window readsOff 20000) scenarioD1

/-- A fifth window, under `readsSteady`: a flip that lasts this window only. -/
def flipAt : State := run (window readsSteady 25000) flipBefore

/-- A sixth window, under `readsOff` again. -/
def flipAfter : State := run (window readsOff 30000) flipAt

/-- The sixth window under `readsSteady` instead. -/
def flipAfterSteady : State := run (window readsSteady 30000) flipAt

/-- After two passes from startup, the state in which the next pass resolves
when every sensor has read a level below its threshold since. -/
def steadyFirst : State := samplingPass readsSteady afterSecondPass

/-- The state in which the pass after `steadyFirst` resolves under the same
readings. -/
def steadySecond : State := samplingPass readsSteady (reportPass steadyFirst)

/-- The inputs of `2 * k` calls of `loop` whose readings alternate between
`readsSteady` and `readsOff` while the clock still reads 0. -/
def alternating : Nat → List ((Fin 4 → Int) × Nat)
  | 0 => []
  | k + 1 => alternating k ++ [(readsSteady, 0), (readsOff, 0)]

/-- Value of a `uint8_t` after the `int` value `x` is stored in it. -/
def wrapUInt8 (x : Int) : Nat := (x % 256).toNat

/-- MySensors message type `V_VAR1`, a constant of the library; only equality
with it is used. -/
def V_VAR1 : Nat := 24

/-- What `receive` reads of a `MyMessage`: the results of `getType()`,
`getSensor()` and `getInt()`.  Only messages addressed to the child ids 0 to 3
are covered: for any other id `levelThresholds[sensor]` is outside the array. -/
structure Message where
  getType : Nat
  getSensor : Fin 4
  getInt : Int

/-- The function `receive`, lines 307-322. -/
def receive (message : Message) (s : State) : State :=
  if message.getType = V_VAR1 then
    let levelThreshold : Nat := wrapUInt8 message.getInt
    let sensor : Fin 4 := message.getSensor
    { s with
      trace := s.trace ++ [Event.saveState sensor.val levelThreshold]
      levelThresholds := Function.update s.levelThresholds sensor levelThreshold }
  else s

/-- The request of scenario E: threshold 150 for sensor 2. -/
def scenarioE : Message := { getType := V_VAR1, getSensor := 2, getInt := 150 }

/-- The levels the `digitalWrite` events of `es` give to `pin`, in order. -/
def writesTo (pin : Nat) (es : List Event) : List Int :=
  es.filterMap fun e =>
    match e with
    | Event.digitalWrite p value => if p = pin then some value else none
    | _ => none

/-- The level of `pin` after the effects `es`: that of the last write to it. -/
def pinLevel (pin : Nat) (es : List Event) : Option Int := (writesTo pin es).getLast?

/-- Sampling passes under a sequence of readings, without any report pass. -/
def sampled (reads : List (Fin 4 → Int)) (s : State) : State :=
  reads.foldl (fun st analogRead => samplingPass analogRead st) s

/-- The states the sketch reaches by `before` on the initial globals, then any
sequence of `loop` calls and of `receive` calls for messages addressed to the
child ids 0 to 3.  A message for another child id makes `receive` write one
byte past the end of `levelThresholds`; where that byte lands depends on the
memory layout of the build, so such calls have no transition here. -/
inductive ReachableInRange : State → Prop
  | atStartup (loadState : Fin 4 → Nat) (millis0 : Nat) :
    ReachableInRange (before loadState (initial millis0))
  | byLoop (analogRead : Fin 4 → Int) (millis : Nat) (s : State) :
    ReachableInRange s → ReachableInRange (loop analogRead millis s)
  | byReceive (message : Message) (s : State) :
    ReachableInRange s → ReachableInRange (receive message s)

/-- The status of the most recent notification sent for sensor `index` in
`es`, `Unknown` when there is none. -/
def lastNotified (index : Fin 4) (es : List Event) : alarm_status :=
  (notificationsFor index es).getLast?.getD alarm_status.Unknown

/-- The invariant of change-only notification for one sensor. -/
def ChangeOnly (index : Fin 4) (s : State) : Prop :=
  lastLed s index = lastNotified index s.trace ∧
  List.Chain' (fun a b => a ≠ b) (notificationsFor index s.trace)

/-- The test of lines 202-204: whether a call of `loop` that reads the clock
value `millis` runs the report pass. -/
def gateOpen (millis : Nat) (s : State) : Bool :=
  decide (wrapULong (s.loops + 1) = 10000) && decide (s.next_print ≤ millis)

/-- The clock values at which the calls of a run ran the report pass. -/
def passTimes : List ((Fin 4 → Int) × Nat) → State → List Nat
  | [], _ => []
  | input :: inputs, s =>
    (if gateOpen input.2 s then [input.2] else []) ++
      passTimes inputs (loop input.1 input.2 s)

/-- The clock never goes back along the calls of a run. -/
def clockNonDecreasing (inputs : List ((Fin 4 → Int) × Nat)) : Prop :=
  List.Pairwise (fun a b => a ≤ b) (inputs.map Prod.snd)

/-- Three windows of 10000 calls that take 4500 ms each. -/
def evenWindows : List ((Fin 4 → Int) × Nat) :=
  window readsOff 4500 ++ (window readsOff 9000 ++ window readsOff 13500)

/-- The startup state one call of `loop` before the gate is tested. -/
def gateDue : State := { startup70 with loops := 9999 }

/-- After the first pass from startup, the state in which the next pass
resolves when sensor 0 has seen two edges since: the skip flag is clear and
sensor 0 resolves `Blinking`. -/
def blinkingDue : State := feed 0 [60, 80, 60, 80] afterFirstPass

/-! ## Sampling: the edge counter -/

theorem specEdgeCountFrom_nil (t : Int) (prevOn : Bool) : specEdgeCountFrom t prevOn [] = 0 := by
  simp [specEdgeCountFrom]

theorem specEdgeCountFrom_cons (t : Int) (prevOn : Bool) (l : Int) (ls : List Int) :
    specEdgeCountFrom t prevOn (l :: ls) =
      (if l < t ∧ prevOn = true then 1 else 0) + specEdgeCountFrom t (decide (t ≤ l)) ls := by
  unfold specEdgeCountFrom
  rw [List.length_cons, List.range_succ_eq_map, List.filter_cons, List.filter_map]
  have hfun : ((fun i => decide ((l :: ls).getD i 0 < t) &&
        (if i = 0 then prevOn else decide (t ≤ (l :: ls).getD (i - 1) 0))) ∘ Nat.succ) =
      (fun i => decide (ls.getD i 0 < t) &&
        (if i = 0 then decide (t ≤ l) else decide (t ≤ ls.getD (i - 1) 0))) := by
    funext i
    cases i with
    | zero => simp
    | succ j => simp
  rw [hfun]
  by_cases h1 : l < t <;> cases prevOn <;> simp [h1, Nat.add_comm]

theorem wrapInt16_succ (b : Int) (h0 : -32768 ≤ b) (h1 : b < 32767) :
    wrapInt16 (b + 1) = b + 1 := by
  unfold wrapInt16
  omega

theorem sampleChannel_levelThresholds (index : Fin 4) (level : Int) (s : State) :
    (sampleChannel index level s).levelThresholds = s.levelThresholds := by
  unfold sampleChannel
  simp only []
  split_ifs <;> rfl

theorem sampleChannel_states_self (index : Fin 4) (level : Int) (s : State) :
    (sampleChannel index level s).states index =
      if level < (s.levelThresholds index : Int) then LOW else HIGH := by
  unfold sampleChannel
  simp only []
  split_ifs <;> simp_all

theorem sampleChannel_blinks_self (index : Fin 4) (level : Int) (s : State) :
    (sampleChannel index level s).blinks index =
      if level < (s.levelThresholds index : Int) ∧ s.states index ≠ LOW then
        wrapInt16 (s.blinks index + 1)
      else s.blinks index := by
  unfold sampleChannel
  simp only []
  split_ifs <;> simp_all [LOW, HIGH]

theorem feed_nil (index : Fin 4) (s : State) : feed index [] s = s := rfl

theorem feed_cons (index : Fin 4) (level : Int) (levels : List Int) (s : State) :
    feed index (level :: levels) s = feed index levels (sampleChannel index level s) := rfl

/-- Feeding levels to a sensor whose stored signal is binary adds the
specification's edge count to `blinks`, as long as the sum fits an `int`. -/
theorem feed_blinks (index : Fin 4) (levels : List Int) :
    ∀ (s : State) (prevOn : Bool),
      s.states index = (if prevOn then HIGH else LOW) →
      0 ≤ s.blinks index →
      s.blinks index + specEdgeCountFrom (s.levelThresholds index) prevOn levels ≤ 32767 →
      (feed index levels s).blinks index =
        s.blinks index + specEdgeCountFrom (s.levelThresholds index) prevOn levels := by
  induction levels with
  | nil =>
    intro s prevOn _ _ _
    simp [feed_nil, specEdgeCountFrom_nil]
  | cons l ls ih =>
    intro s prevOn hst hb hsum
    rw [feed_cons]
    rw [specEdgeCountFrom_cons] at hsum ⊢
    have hthr := sampleChannel_levelThresholds index l s
    have hst1 := sampleChannel_states_self index l s
    have hbl1 := sampleChannel_blinks_self index l s
    have hst2 : (sampleChannel index l s).states index =
        if decide ((s.levelThresholds index : Int) ≤ l) = true then HIGH else LOW := by
      rw [hst1]
      by_cases hl : l < (s.levelThresholds index : Int)
      · have : ¬ ((s.levelThresholds index : Int) ≤ l) := by omega
        simp [hl, this]
      · have : (s.levelThresholds index : Int) ≤ l := by omega
        simp [hl, this]
    by_cases hedge : l < (s.levelThresholds index : Int) ∧ prevOn = true
    · have hne : s.states index ≠ LOW := by
        rw [hst, hedge.2]
        simp [HIGH, LOW]
      rw [if_pos hedge] at hsum ⊢
      rw [if_pos ⟨hedge.1, hne⟩] at hbl1
      rw [wrapInt16_succ _ (by omega) (by omega)] at hbl1
      have ih1 := ih (sampleChannel index l s) (decide ((s.levelThresholds index : Int) ≤ l))
        (by rw [hthr] at *; exact hst2) (by rw [hbl1]; omega)
        (by rw [hthr, hbl1]; push_cast at hsum ⊢; omega)
      rw [ih1, hthr, hbl1]
      push_cast
      omega
    · have hno : ¬ (l < (s.levelThresholds index : Int) ∧ s.states index ≠ LOW) := by
        rintro ⟨h1, h2⟩
        apply hedge
        refine ⟨h1, ?_⟩
        cases prevOn with
        | true => rfl
        | false => exact absurd (by simpa using hst) h2
      rw [if_neg hedge] at hsum ⊢
      rw [if_neg hno] at hbl1
      have ih1 := ih (sampleChannel index l s) (decide ((s.levelThresholds index : Int) ≤ l))
        (by rw [hthr] at *; exact hst2) (by rw [hbl1]; exact hb)
        (by rw [hthr, hbl1]; push_cast at hsum ⊢; omega)
      rw [ih1, hthr, hbl1]
      push_cast
      omega

theorem before_states (loadState : Fin 4 → Nat) (s : State) (index : Fin 4) :
    (before loadState s).states index = HIGH := by
  fin_cases index <;> simp [before, beforeChannel, Function.update]

theorem before_blinks (loadState : Fin 4 → Nat) (s : State) (index : Fin 4) :
    (before loadState s).blinks index = 0 := by
  fin_cases index <;> simp [before, beforeChannel, Function.update]

/-! ## The led interpreter -/

/-- C1: whenever `blinks[index] > 1` the led interpreter yields `Blinking`,
whatever `states[index]` holds, and its result is determined by the pair
(`blinks[index]`, `states[index]`) alone, across states and sensors. -/
theorem ledInterpreter_blinking_of_edges (s t : State) (i j : Fin 4) :
    (1 < s.blinks i → ledInterpreter s i = alarm_status.Blinking) ∧
    (s.blinks i = t.blinks j → s.states i = t.states j →
      ledInterpreter s i = ledInterpreter t j) := by
  constructor
  · intro h
    simp [ledInterpreter, h]
  · intro hb hs
    simp [ledInterpreter, hb, hs]

/-- Witness of C1: two edges on sensor 1, and the same pair on sensors 1 and 2
of two different runs. -/
theorem ledInterpreter_blinking_of_edges_witness :
    (1 < (feed 1 [60, 80, 60, 80] startup70).blinks 1 ∧
      ledInterpreter (feed 1 [60, 80, 60, 80] startup70) 1 = alarm_status.Blinking) ∧
    ((feed 1 [60, 80, 60, 80] startup70).blinks 1 = (feed 2 [50, 90, 10, 70] startup70).blinks 2 ∧
      (feed 1 [60, 80, 60, 80] startup70).states 1 = (feed 2 [50, 90, 10, 70] startup70).states 2 ∧
      ledInterpreter (feed 1 [60, 80, 60, 80] startup70) 1 =
        ledInterpreter (feed 2 [50, 90, 10, 70] startup70) 2) :=
  ⟨⟨by decide,
    (ledInterpreter_blinking_of_edges (feed 1 [60, 80, 60, 80] startup70)
      (feed 2 [50, 90, 10, 70] startup70) 1 2).1 (by decide)⟩,
   ⟨by decide, by decide,
    (ledInterpreter_blinking_of_edges (feed 1 [60, 80, 60, 80] startup70)
      (feed 2 [50, 90, 10, 70] startup70) 1 2).2 (by decide) (by decide)⟩⟩

/-- C2: with `blinks[index] ≤ 1` the led interpreter yields `Activated` when
`states[index]` is `LOW` and `Desactivated` otherwise, never `Blinking`; and on
every sensor the levels 80, 80, 60, 60 against threshold 70 from startup leave
one edge, signal `LOW`, status `Activated`. -/
theorem ledInterpreter_of_few_edges :
    (∀ (s : State) (i : Fin 4), s.blinks i ≤ 1 →
      (s.states i = LOW → ledInterpreter s i = alarm_status.Activated) ∧
      (s.states i ≠ LOW → ledInterpreter s i = alarm_status.Desactivated) ∧
      ledInterpreter s i ≠ alarm_status.Blinking) ∧
    (∀ i : Fin 4,
      startup70.levelThresholds i = 70 ∧
      (feed i [80, 80, 60, 60] startup70).blinks i = 1 ∧
      (feed i [80, 80, 60, 60] startup70).states i = LOW ∧
      ledInterpreter (feed i [80, 80, 60, 60] startup70) i = alarm_status.Activated) := by
  constructor
  · intro s i h
    have h1 : ¬ s.blinks i > 1 := by omega
    refine ⟨?_, ?_, ?_⟩
    · intro hs
      simp [ledInterpreter, h1, hs]
    · intro hs
      simp [ledInterpreter, h1, hs]
    · unfold ledInterpreter
      rw [if_neg h1]
      split_ifs <;> simp
  · decide

/-- Witness of C2: one edge with the signal `LOW`, and no edge with the signal
`HIGH`. -/
theorem ledInterpreter_of_few_edges_witness :
    ((feed 0 [80, 80, 60, 60] startup70).blinks 0 ≤ 1 ∧
      (feed 0 [80, 80, 60, 60] startup70).states 0 = LOW ∧
      ledInterpreter (feed 0 [80, 80, 60, 60] startup70) 0 = alarm_status.Activated) ∧
    (startup70.blinks 3 ≤ 1 ∧ startup70.states 3 ≠ LOW ∧
      ledInterpreter startup70 3 = alarm_status.Desactivated) :=
  ⟨⟨by decide, by decide,
    (ledInterpreter_of_few_edges.1 (feed 0 [80, 80, 60, 60] startup70) 0 (by decide)).1
      (by decide)⟩,
   ⟨by decide, by decide,
    (ledInterpreter_of_few_edges.1 startup70 3 (by decide)).2.1 (by decide)⟩⟩

/-! ## The edge counter, claims -/

/-- C9, amended: one update leaves `states[index]` equal to the new signal
(`LOW` if the level is below the threshold, `HIGH` otherwise); it adds exactly
1 to `blinks[index]` when the stored signal was `HIGH`, the new one is `LOW`
and the counter is an `int` below 32767; it leaves `blinks[index]` unchanged on
`LOW` to `HIGH`, `HIGH` to `HIGH` and `LOW` to `LOW`. -/
theorem sampleChannel_edge_step (s : State) (index : Fin 4) (level : Int) :
    (sampleChannel index level s).states index =
      (if level < (s.levelThresholds index : Int) then LOW else HIGH) ∧
    (s.states index = HIGH → level < (s.levelThresholds index : Int) →
      -32768 ≤ s.blinks index → s.blinks index < 32767 →
      (sampleChannel index level s).blinks index = s.blinks index + 1) ∧
    (s.states index = LOW → ¬ level < (s.levelThresholds index : Int) →
      (sampleChannel index level s).blinks index = s.blinks index) ∧
    (s.states index = HIGH → ¬ level < (s.levelThresholds index : Int) →
      (sampleChannel index level s).blinks index = s.blinks index) ∧
    (s.states index = LOW → level < (s.levelThresholds index : Int) →
      (sampleChannel index level s).blinks index = s.blinks index) := by
  refine ⟨sampleChannel_states_self index level s, ?_, ?_, ?_, ?_⟩
  · intro hs hl h0 h1
    rw [sampleChannel_blinks_self, if_pos ⟨hl, by rw [hs]; simp [HIGH, LOW]⟩]
    exact wrapInt16_succ _ h0 h1
  · intro _ hl
    rw [sampleChannel_blinks_self, if_neg (fun h => hl h.1)]
  · intro _ hl
    rw [sampleChannel_blinks_self, if_neg (fun h => hl h.1)]
  · intro hs _
    rw [sampleChannel_blinks_self, if_neg (fun h => h.2 hs)]

/-- Witness of the amended C9: the four transitions on sensor 2, from startup
(signal `HIGH`) and after one level below the threshold (signal `LOW`). -/
theorem sampleChannel_edge_step_witness :
    ((sampleChannel 2 60 startup70).blinks 2 = startup70.blinks 2 + 1) ∧
    ((sampleChannel 2 80 (sampleChannel 2 60 startup70)).blinks 2 =
      (sampleChannel 2 60 startup70).blinks 2) ∧
    ((sampleChannel 2 80 startup70).blinks 2 = startup70.blinks 2) ∧
    ((sampleChannel 2 50 (sampleChannel 2 60 startup70)).blinks 2 =
      (sampleChannel 2 60 startup70).blinks 2) :=
  ⟨(sampleChannel_edge_step startup70 2 60).2.1 (by decide) (by decide) (by decide) (by decide),
   (sampleChannel_edge_step (sampleChannel 2 60 startup70) 2 80).2.2.1 (by decide) (by decide),
   (sampleChannel_edge_step startup70 2 80).2.2.2.1 (by decide) (by decide),
   (sampleChannel_edge_step (sampleChannel 2 60 startup70) 2 50).2.2.2.2 (by decide)
     (by decide)⟩

/-- C10: from a state in which `states[index]` is `HIGH` and `blinks[index]`
is 0, as `before` leaves every sensor, feeding a list of levels whose edge
count fits an `int` leaves in `blinks[index]` the number of positions whose
level is below the threshold and whose predecessor (initially ON) is not.
With threshold 70, levels 80, 80, 80 give 0 and `Desactivated`; levels 60, 80,
60, 80 give 2 and `Blinking`. -/
theorem feed_blinks_eq_specEdgeCount :
    (∀ (s : State) (index : Fin 4) (levels : List Int),
      s.states index = HIGH → s.blinks index = 0 →
      specEdgeCount (s.levelThresholds index) levels ≤ 32767 →
      (feed index levels s).blinks index =
        specEdgeCount (s.levelThresholds index) levels) ∧
    (∀ (loadState : Fin 4 → Nat) (millis0 : Nat) (index : Fin 4),
      (before loadState (initial millis0)).states index = HIGH ∧
      (before loadState (initial millis0)).blinks index = 0) ∧
    (∀ i : Fin 4,
      specEdgeCount 70 [80, 80, 80] = 0 ∧
      (feed i [80, 80, 80] startup70).blinks i = 0 ∧
      ledInterpreter (feed i [80, 80, 80] startup70) i = alarm_status.Desactivated) ∧
    (∀ i : Fin 4,
      specEdgeCount 70 [60, 80, 60, 80] = 2 ∧
      (feed i [60, 80, 60, 80] startup70).blinks i = 2 ∧
      ledInterpreter (feed i [60, 80, 60, 80] startup70) i = alarm_status.Blinking) := by
  refine ⟨?_, ?_, by decide, by decide⟩
  · intro s index levels hs hb hfit
    have h := feed_blinks index levels s true (by simpa using hs) (by omega)
      (by unfold specEdgeCount at hfit; rw [hb]; omega)
    rw [h, hb]
    simp [specEdgeCount]
  · intro loadState millis0 index
    exact ⟨before_states loadState _ index, before_blinks loadState _ index⟩

/-- Witness of C10: three edges on sensor 3 from startup. -/
theorem feed_blinks_eq_specEdgeCount_witness :
    startup70.states 3 = HIGH ∧ startup70.blinks 3 = 0 ∧
    specEdgeCount (startup70.levelThresholds 3) [10, 90, 69, 70, 0, 0] ≤ 32767 ∧
    (feed 3 [10, 90, 69, 70, 0, 0] startup70).blinks 3 =
      specEdgeCount (startup70.levelThresholds 3) [10, 90, 69, 70, 0, 0] :=
  ⟨by decide, by decide, by decide,
   feed_blinks_eq_specEdgeCount.1 startup70 3 [10, 90, 69, 70, 0, 0] (by decide) (by decide)
     (by decide)⟩

/-! ## The report pass, sensor by sensor -/

theorem fin4_cases (i : Fin 4) : i = 0 ∨ i = 1 ∨ i = 2 ∨ i = 3 := by
  revert i
  decide

theorem reportChannel_blinks (index : Fin 4) (s : State) :
    (reportChannel index s).blinks = Function.update s.blinks index 0 := by
  fin_cases index <;> simp [reportChannel, reportSwitch] <;> split_ifs <;> rfl

theorem reportChannel_states (index : Fin 4) (s : State) :
    (reportChannel index s).states = s.states := by
  fin_cases index <;> simp [reportChannel, reportSwitch] <;> split_ifs <;> rfl

theorem reportChannel_trace (index : Fin 4) (s : State) :
    (reportChannel index s).trace = s.trace ++ reportEvents index s := by
  fin_cases index <;> simp [reportEvents, emitted, reportChannel, reportSwitch] <;>
    split_ifs <;> simp

theorem ledInterpreter_reportChannel (index other : Fin 4) (h : other ≠ index) (s : State) :
    ledInterpreter (reportChannel index s) other = ledInterpreter s other := by
  simp [ledInterpreter, reportChannel_blinks, reportChannel_states, Function.update_noteq h]

theorem lastLed_reportChannel (index other : Fin 4) (h : other ≠ index) (s : State) :
    lastLed (reportChannel index s) other = lastLed s other := by
  fin_cases index <;> fin_cases other <;>
    first
    | exact absurd rfl h
    | (simp [lastLed, reportChannel, reportSwitch]; split_ifs <;> rfl)

theorem skip_reportChannel (index : Fin 4) (h : index ≠ 0) (s : State) :
    (reportChannel index s).lastLedOperation_skip = s.lastLedOperation_skip := by
  fin_cases index <;>
    first
    | exact absurd rfl h
    | (simp [reportChannel, reportSwitch]; split_ifs <;> rfl)

theorem activateLeds_channel (status : alarm_status) :
    ∀ e ∈ activateLeds status, e.channel = some 0 := by
  cases status <;> simp [activateLeds, Event.channel, OperationPartial_Led_Pin,
    OperationFull_Led_Pin]

theorem reportEvents_channel (index : Fin 4) (s : State) :
    ∀ e ∈ reportEvents index s, e.channel = some index.val := by
  have h0 := activateLeds_channel (ledInterpreter s 0)
  fin_cases index <;> simp [reportEvents, emitted, reportChannel, reportSwitch] <;>
    split_ifs <;>
    simp [Event.channel, OperationPartial_Led_Pin, OperationFull_Led_Pin, Trigger_Led_Pin,
      Bell_Led_Pin, Maintenance_Led_Pin, Operation_Child_Id, Trigger_Child_Id, Bell_Child_Id,
      Maintenance_Child_Id]
  intro a ha
  rcases ha with ha | ha
  · exact h0 a ha
  · subst ha
    rfl

theorem reportEvents_filter_self (index : Fin 4) (s : State) :
    (reportEvents index s).filter (fun e => e.channel = some index.val) =
      reportEvents index s := by
  rw [List.filter_eq_self]
  intro e he
  simp [reportEvents_channel index s e he]

theorem reportEvents_filter_other (index other : Fin 4) (h : other ≠ index) (s : State) :
    (reportEvents index s).filter (fun e => e.channel = some other.val) = [] := by
  rw [List.filter_eq_nil_iff]
  intro e he
  have hv : index.val ≠ other.val := fun hv => h (Fin.ext hv.symm)
  simp [reportEvents_channel index s e he, hv]

theorem reportEvents_congr (index : Fin 4) (h : index ≠ 0) (s t : State)
    (h1 : ledInterpreter s index = ledInterpreter t index)
    (h2 : lastLed s index = lastLed t index) :
    reportEvents index s = reportEvents index t := by
  fin_cases index <;>
    first
    | exact absurd rfl h
    | (simp [lastLed] at h1 h2
       simp [reportEvents, emitted, reportChannel, reportSwitch, h1, h2]
       split_ifs <;> simp)

theorem lastLed_reportChannel_self (index : Fin 4) (h : index ≠ 0) (s : State) :
    lastLed (reportChannel index s) index = ledInterpreter s index := by
  fin_cases index <;>
    first
    | exact absurd rfl h
    | (simp [lastLed, reportChannel, reportSwitch]
       split_ifs with h1 <;> simp [h1])

/-! ## The report pass as a whole -/

theorem reportPass_eq (s : State) :
    reportPass s =
      reportChannel 3 (reportChannel 2 (reportChannel 1 (reportChannel 0 s))) := rfl

theorem emitted_reportPass (s : State) :
    emitted s (reportPass s) =
      reportEvents 0 s ++ reportEvents 1 s ++ reportEvents 2 s ++ reportEvents 3 s := by
  have e1 : reportEvents 1 (reportChannel 0 s) = reportEvents 1 s :=
    reportEvents_congr 1 (by decide) _ _
      (ledInterpreter_reportChannel 0 1 (by decide) s)
      (lastLed_reportChannel 0 1 (by decide) s)
  have e2 : reportEvents 2 (reportChannel 1 (reportChannel 0 s)) = reportEvents 2 s :=
    reportEvents_congr 2 (by decide) _ _
      (by rw [ledInterpreter_reportChannel 1 2 (by decide),
        ledInterpreter_reportChannel 0 2 (by decide)])
      (by rw [lastLed_reportChannel 1 2 (by decide), lastLed_reportChannel 0 2 (by decide)])
  have e3 : reportEvents 3 (reportChannel 2 (reportChannel 1 (reportChannel 0 s))) =
      reportEvents 3 s :=
    reportEvents_congr 3 (by decide) _ _
      (by rw [ledInterpreter_reportChannel 2 3 (by decide),
        ledInterpreter_reportChannel 1 3 (by decide),
        ledInterpreter_reportChannel 0 3 (by decide)])
      (by rw [lastLed_reportChannel 2 3 (by decide), lastLed_reportChannel 1 3 (by decide),
        lastLed_reportChannel 0 3 (by decide)])
  unfold emitted
  rw [reportPass_eq, reportChannel_trace, reportChannel_trace, reportChannel_trace,
    reportChannel_trace, e1, e2, e3]
  simp [List.append_assoc]

theorem emittedFor_reportPass (index : Fin 4) (s : State) :
    emittedFor index s (reportPass s) = reportEvents index s := by
  unfold emittedFor
  rw [emitted_reportPass, List.filter_append, List.filter_append, List.filter_append]
  rcases fin4_cases index with rfl | rfl | rfl | rfl
  · rw [reportEvents_filter_self 0 s, reportEvents_filter_other 1 0 (by decide) s,
      reportEvents_filter_other 2 0 (by decide) s, reportEvents_filter_other 3 0 (by decide) s]
    simp
  · rw [reportEvents_filter_self 1 s, reportEvents_filter_other 0 1 (by decide) s,
      reportEvents_filter_other 2 1 (by decide) s, reportEvents_filter_other 3 1 (by decide) s]
    simp
  · rw [reportEvents_filter_self 2 s, reportEvents_filter_other 0 2 (by decide) s,
      reportEvents_filter_other 1 2 (by decide) s, reportEvents_filter_other 3 2 (by decide) s]
    simp
  · rw [reportEvents_filter_self 3 s, reportEvents_filter_other 0 3 (by decide) s,
      reportEvents_filter_other 1 3 (by decide) s, reportEvents_filter_other 2 3 (by decide) s]
    simp

theorem lastLed_reportPass (index : Fin 4) (s : State) :
    lastLed (reportPass s) index = lastLed (reportChannel index s) index := by
  rw [reportPass_eq]
  rcases fin4_cases index with rfl | rfl | rfl | rfl
  · rw [lastLed_reportChannel 3 0 (by decide), lastLed_reportChannel 2 0 (by decide),
      lastLed_reportChannel 1 0 (by decide)]
  · rw [lastLed_reportChannel 3 1 (by decide), lastLed_reportChannel 2 1 (by decide),
      lastLed_reportChannel_self 1 (by decide), lastLed_reportChannel_self 1 (by decide),
      ledInterpreter_reportChannel 0 1 (by decide)]
  · rw [lastLed_reportChannel 3 2 (by decide), lastLed_reportChannel_self 2 (by decide),
      lastLed_reportChannel_self 2 (by decide), ledInterpreter_reportChannel 1 2 (by decide),
      ledInterpreter_reportChannel 0 2 (by decide)]
  · rw [lastLed_reportChannel_self 3 (by decide), lastLed_reportChannel_self 3 (by decide),
      ledInterpreter_reportChannel 2 3 (by decide), ledInterpreter_reportChannel 1 3 (by decide),
      ledInterpreter_reportChannel 0 3 (by decide)]

theorem skip_reportPass (s : State) :
    (reportPass s).lastLedOperation_skip = (reportChannel 0 s).lastLedOperation_skip := by
  rw [reportPass_eq, skip_reportChannel 3 (by decide), skip_reportChannel 2 (by decide),
    skip_reportChannel 1 (by decide)]

theorem reportChannel_of_eq (index : Fin 4) (s : State)
    (h : ledInterpreter s index = lastLed s index) :
    reportChannel index s = { s with blinks := Function.update s.blinks index 0 } := by
  rcases fin4_cases index with rfl | rfl | rfl | rfl <;>
    simp [lastLed] at h <;> simp [reportChannel, reportSwitch, h]

theorem reportEvents_of_eq (index : Fin 4) (s : State)
    (h : ledInterpreter s index = lastLed s index) : reportEvents index s = [] := by
  simp [reportEvents, emitted, reportChannel_of_eq index s h]

theorem reportChannel_zero_absorb (s : State) (h : ledInterpreter s 0 ≠ s.lastLedOperation)
    (hskip : s.lastLedOperation_skip = true) :
    reportChannel 0 s =
      { s with lastLedOperation_skip := false, blinks := Function.update s.blinks 0 0 } := by
  simp [reportChannel, reportSwitch, h, hskip]

theorem reportChannel_zero_report (s : State) (h : ledInterpreter s 0 ≠ s.lastLedOperation)
    (hskip : s.lastLedOperation_skip = false) :
    reportChannel 0 s =
      { s with
        lastLedOperation_skip := true
        trace := s.trace ++
          [Event.digitalWrite OperationFull_Led_Pin HIGH,
           Event.digitalWrite OperationPartial_Led_Pin HIGH] ++
          activateLeds (ledInterpreter s 0) ++
          [Event.send Operation_Child_Id (ledInterpreter s 0)]
        lastLedOperation := ledInterpreter s 0
        blinks := Function.update s.blinks 0 0 } := by
  simp [reportChannel, reportSwitch, h, hskip]

theorem notificationsFor_append (index : Fin 4) (es fs : List Event) :
    notificationsFor index (es ++ fs) = notificationsFor index es ++ notificationsFor index fs := by
  simp [notificationsFor, List.filterMap_append]

theorem notificationsFor_activateLeds (index : Fin 4) (status : alarm_status) :
    notificationsFor index (activateLeds status) = [] := by
  cases status <;> simp [notificationsFor, activateLeds]

theorem notificationsFor_filter (index : Fin 4) (es : List Event) :
    notificationsFor index (es.filter fun e => e.channel = some index.val) =
      notificationsFor index es := by
  induction es with
  | nil => rfl
  | cons e es ih =>
    have hcons : notificationsFor index (e :: es) =
        notificationsFor index [e] ++ notificationsFor index es :=
      notificationsFor_append index [e] es
    rw [hcons, List.filter_cons]
    split_ifs with hc
    · have hcons2 := notificationsFor_append index [e]
        (es.filter fun e => e.channel = some index.val)
      rw [List.singleton_append] at hcons2
      rw [hcons2, ih]
    · rw [ih]
      cases e with
      | digitalWrite pin value => simp [notificationsFor]
      | send sensor status =>
        have : sensor ≠ index.val := by simpa [Event.channel] using hc
        simp [notificationsFor, this]
      | saveState pos value => simp [notificationsFor]

theorem notificationsFor_emitted (index : Fin 4) (s t : State) :
    notificationsFor index (emitted s t) = notificationsFor index (emittedFor index s t) := by
  unfold emittedFor
  rw [notificationsFor_filter]

theorem sampleChannel_frame (index : Fin 4) (level : Int) (s : State) :
    (sampleChannel index level s).lastLedOperation = s.lastLedOperation ∧
    (sampleChannel index level s).lastLedOperation_skip = s.lastLedOperation_skip ∧
    (sampleChannel index level s).trace = s.trace := by
  unfold sampleChannel
  simp only []
  split_ifs <;> simp

theorem samplingPass_frame (analogRead : Fin 4 → Int) (s : State) :
    (samplingPass analogRead s).lastLedOperation = s.lastLedOperation ∧
    (samplingPass analogRead s).lastLedOperation_skip = s.lastLedOperation_skip ∧
    (samplingPass analogRead s).trace = s.trace := by
  simp [samplingPass, sampleChannel_frame]

/-! ## The change reporter, claims -/

/-- C3: after a report pass `blinks[index]` is 0 for every sensor, whatever the
state the pass started from; handling one sensor already zeroes its counter. -/
theorem reportPass_resets_blinks (s : State) (index : Fin 4) :
    (reportPass s).blinks index = 0 ∧ (reportChannel index s).blinks index = 0 := by
  constructor
  · rw [reportPass_eq]
    simp only [reportChannel_blinks]
    rcases fin4_cases index with rfl | rfl | rfl | rfl <;> simp [Function.update]
  · simp [reportChannel_blinks]

/-- C4: when the status the led interpreter yields for a sensor equals its
last-reported status, the report pass adds no effect of that sensor to the
trace (no pin write, no `send`), keeps its last-reported status and, for
sensor 0, the skip flag; handling the sensor changes nothing but its counter. -/
theorem reportPass_silent_when_unchanged (s : State) (index : Fin 4)
    (h : ledInterpreter s index = lastLed s index) :
    emittedFor index s (reportPass s) = [] ∧
    lastLed (reportPass s) index = lastLed s index ∧
    (index = 0 → (reportPass s).lastLedOperation_skip = s.lastLedOperation_skip) ∧
    reportChannel index s = { s with blinks := Function.update s.blinks index 0 } := by
  refine ⟨?_, ?_, ?_, reportChannel_of_eq index s h⟩
  · rw [emittedFor_reportPass, reportEvents_of_eq index s h]
  · rw [lastLed_reportPass, reportChannel_of_eq index s h]
    rfl
  · intro h0
    subst h0
    rw [skip_reportPass, reportChannel_of_eq 0 s h]

/-- Witness of C4: sensor 0 after two passes from startup, when it has
reported `Desactivated` and still reads `Desactivated`. -/
theorem reportPass_silent_when_unchanged_witness :
    ledInterpreter afterSecondPass 0 = lastLed afterSecondPass 0 ∧
    emittedFor 0 afterSecondPass (reportPass afterSecondPass) = [] ∧
    lastLed (reportPass afterSecondPass) 0 = lastLed afterSecondPass 0 ∧
    (reportPass afterSecondPass).lastLedOperation_skip =
      afterSecondPass.lastLedOperation_skip :=
  ⟨by decide,
   (reportPass_silent_when_unchanged afterSecondPass 0 (by decide)).1,
   (reportPass_silent_when_unchanged afterSecondPass 0 (by decide)).2.1,
   (reportPass_silent_when_unchanged afterSecondPass 0 (by decide)).2.2.1 rfl⟩

/-- C8: for a sensor other than 0 whose interpreted status differs from its
last-reported status, the report pass sends exactly one notification for the
sensor, carrying that status, followed by one write of the sensor's output
pin, and stores the status as last-reported. -/
theorem reportPass_reports_change (s : State) (index : Fin 4) (h0 : index ≠ 0)
    (h : ledInterpreter s index ≠ lastLed s index) :
    notificationsFor index (emitted s (reportPass s)) = [ledInterpreter s index] ∧
    (∃ pin, emittedFor index s (reportPass s) =
      [Event.send index.val (ledInterpreter s index),
       Event.digitalWrite pin
         (if ledInterpreter s index ≠ alarm_status.Desactivated then HIGH else LOW)]) ∧
    lastLed (reportPass s) index = ledInterpreter s index := by
  have hev : ∃ pin, reportEvents index s =
      [Event.send index.val (ledInterpreter s index),
       Event.digitalWrite pin
         (if ledInterpreter s index ≠ alarm_status.Desactivated then HIGH else LOW)] := by
    rcases fin4_cases index with rfl | rfl | rfl | rfl
    · exact absurd rfl h0
    · refine ⟨Trigger_Led_Pin, ?_⟩
      have h1 : ¬ s.lastLedTrigger = ledInterpreter s 1 := fun e => h (by simp [lastLed, e])
      simp [reportEvents, emitted, reportChannel, reportSwitch, h1, Trigger_Child_Id]
    · refine ⟨Bell_Led_Pin, ?_⟩
      have h1 : ¬ s.lastLedBell = ledInterpreter s 2 := fun e => h (by simp [lastLed, e])
      simp [reportEvents, emitted, reportChannel, reportSwitch, h1, Bell_Child_Id]
    · refine ⟨Maintenance_Led_Pin, ?_⟩
      have h1 : ¬ s.lastLedMaintenance = ledInterpreter s 3 := fun e => h (by simp [lastLed, e])
      simp [reportEvents, emitted, reportChannel, reportSwitch, h1, Maintenance_Child_Id]
      rfl
  refine ⟨?_, ?_, ?_⟩
  · obtain ⟨pin, hpin⟩ := hev
    rw [notificationsFor_emitted, emittedFor_reportPass, hpin]
    simp [notificationsFor]
  · rw [emittedFor_reportPass]
    exact hev
  · rw [lastLed_reportPass, lastLed_reportChannel_self index h0]

/-- Witness of C8: the first pass from startup on sensor 2, whose last-reported
status is `Unknown`. -/
theorem reportPass_reports_change_witness :
    ledInterpreter startup70 2 ≠ lastLed startup70 2 ∧
    notificationsFor 2 (emitted startup70 (reportPass startup70)) =
      [ledInterpreter startup70 2] ∧
    lastLed (reportPass startup70) 2 = ledInterpreter startup70 2 :=
  ⟨by decide,
   (reportPass_reports_change startup70 2 (by decide) (by decide)).1,
   (reportPass_reports_change startup70 2 (by decide) (by decide)).2.2⟩

/-! ## Windows of `loop` calls under steady readings -/

theorem sampleChannel_states_other (index other : Fin 4) (h : other ≠ index) (level : Int)
    (s : State) : (sampleChannel index level s).states other = s.states other := by
  unfold sampleChannel
  simp only []
  split_ifs <;> simp [Function.update_noteq h]

theorem sampleChannel_of_settled (index : Fin 4) (level : Int) (s : State)
    (h : s.states index = if level < (s.levelThresholds index : Int) then LOW else HIGH) :
    sampleChannel index level s = s := by
  unfold sampleChannel
  simp only []
  rw [if_neg]
  simp [h]

theorem sampleChannel_with_loops (index : Fin 4) (level : Int) (s : State) (n : Nat) :
    sampleChannel index level { s with loops := n } =
      { sampleChannel index level s with loops := n } := by
  unfold sampleChannel
  simp only []
  split_ifs <;> rfl

theorem samplingPass_eq (analogRead : Fin 4 → Int) (s : State) :
    samplingPass analogRead s =
      sampleChannel 3 (lightLevel (analogRead 3))
        (sampleChannel 2 (lightLevel (analogRead 2))
          (sampleChannel 1 (lightLevel (analogRead 1))
            (sampleChannel 0 (lightLevel (analogRead 0)) s))) := rfl

theorem samplingPass_with_loops (analogRead : Fin 4 → Int) (s : State) (n : Nat) :
    samplingPass analogRead { s with loops := n } =
      { samplingPass analogRead s with loops := n } := by
  simp only [samplingPass_eq, sampleChannel_with_loops]

theorem samplingPass_levelThresholds (analogRead : Fin 4 → Int) (s : State) :
    (samplingPass analogRead s).levelThresholds = s.levelThresholds := by
  simp only [samplingPass_eq, sampleChannel_levelThresholds]

theorem samplingPass_states (analogRead : Fin 4 → Int) (s : State) (index : Fin 4) :
    (samplingPass analogRead s).states index =
      if lightLevel (analogRead index) < (s.levelThresholds index : Int) then LOW else HIGH := by
  rw [samplingPass_eq]
  rcases fin4_cases index with rfl | rfl | rfl | rfl
  · rw [sampleChannel_states_other 3 0 (by decide), sampleChannel_states_other 2 0 (by decide),
      sampleChannel_states_other 1 0 (by decide), sampleChannel_states_self]
  · rw [sampleChannel_states_other 3 1 (by decide), sampleChannel_states_other 2 1 (by decide),
      sampleChannel_states_self, sampleChannel_levelThresholds]
  · rw [sampleChannel_states_other 3 2 (by decide), sampleChannel_states_self,
      sampleChannel_levelThresholds, sampleChannel_levelThresholds]
  · rw [sampleChannel_states_self, sampleChannel_levelThresholds,
      sampleChannel_levelThresholds, sampleChannel_levelThresholds]

theorem samplingPass_of_settled (analogRead : Fin 4 → Int) (s : State)
    (h : ∀ index, s.states index =
      if lightLevel (analogRead index) < (s.levelThresholds index : Int) then LOW else HIGH) :
    samplingPass analogRead s = s := by
  rw [samplingPass_eq, sampleChannel_of_settled 0 _ s (h 0), sampleChannel_of_settled 1 _ s (h 1),
    sampleChannel_of_settled 2 _ s (h 2), sampleChannel_of_settled 3 _ s (h 3)]

theorem samplingPass_idem (analogRead : Fin 4 → Int) (s : State) :
    samplingPass analogRead (samplingPass analogRead s) = samplingPass analogRead s := by
  apply samplingPass_of_settled
  intro index
  rw [samplingPass_states, samplingPass_levelThresholds]

theorem samplingPass_loops (analogRead : Fin 4 → Int) (s : State) :
    (samplingPass analogRead s).loops = s.loops ∧
    (samplingPass analogRead s).next_print = s.next_print := by
  have h : ∀ (index : Fin 4) (level : Int) (t : State),
      (sampleChannel index level t).loops = t.loops ∧
      (sampleChannel index level t).next_print = t.next_print := by
    intro index level t
    unfold sampleChannel
    simp only []
    split_ifs <;> simp
  simp [samplingPass_eq, h]

theorem loop_of_idle (analogRead : Fin 4 → Int) (millis : Nat) (s : State)
    (h : wrapULong (s.loops + 1) ≠ 10000) :
    loop analogRead millis s =
      { samplingPass analogRead s with loops := wrapULong (s.loops + 1) } := by
  unfold loop
  simp only [(samplingPass_loops analogRead s).1]
  rw [if_neg h]

theorem loop_of_gate (analogRead : Fin 4 → Int) (millis : Nat) (s : State)
    (h : wrapULong (s.loops + 1) = 10000) (hm : s.next_print ≤ millis) :
    loop analogRead millis s = cycle analogRead s := by
  unfold loop cycle
  simp only [(samplingPass_loops analogRead s).1, (samplingPass_loops analogRead s).2]
  rw [if_pos h, if_pos hm]

theorem run_append (xs ys : List ((Fin 4 → Int) × Nat)) (s : State) :
    run (xs ++ ys) s = run ys (run xs s) := by
  simp [run, List.foldl_append]

theorem run_replicate (analogRead : Fin 4 → Int) (millis : Nat) (s : State) (h0 : s.loops = 0) :
    ∀ k : Nat, k + 1 < 10000 →
      run (List.replicate (k + 1) (analogRead, millis)) s =
        { samplingPass analogRead s with loops := k + 1 } := by
  intro k
  induction k with
  | zero =>
    intro _
    have h1 : wrapULong (s.loops + 1) = 1 := by rw [h0]; rfl
    show loop analogRead millis s = _
    rw [loop_of_idle analogRead millis s (by rw [h1]; decide), h1]
  | succ k ih =>
    intro hk
    rw [List.replicate_succ', run_append, ih (by omega)]
    show loop analogRead millis _ = _
    have h1 : wrapULong (k + 1 + 1) = k + 1 + 1 := by
      unfold wrapULong
      omega
    rw [loop_of_idle _ _ _ (by simp only []; rw [h1]; omega)]
    simp only [samplingPass_with_loops, samplingPass_idem, h1]

/-- A window that starts with `loops` at 0 once the clock has reached
`next_print` is one sampling pass and one report pass. -/
theorem run_window (analogRead : Fin 4 → Int) (millis : Nat) (s : State) (h0 : s.loops = 0)
    (hm : s.next_print ≤ millis) :
    run (window analogRead millis) s = cycle analogRead s := by
  have hw : window analogRead millis =
      List.replicate (9998 + 1) (analogRead, millis) ++ [(analogRead, millis)] := by
    unfold window
    rw [← List.replicate_succ']
  rw [hw, run_append, run_replicate analogRead millis s h0 9998 (by omega)]
  have hidem := samplingPass_idem analogRead s
  have hnp := (samplingPass_loops analogRead s).2
  unfold cycle
  generalize samplingPass analogRead s = t at hidem hnp ⊢
  show loop analogRead millis { t with loops := 9998 + 1 } = _
  unfold loop
  rw [samplingPass_with_loops, hidem]
  dsimp only
  rw [if_pos (by decide), if_pos (by rw [hnp]; exact hm), hnp]

theorem cycle_loops (analogRead : Fin 4 → Int) (s : State) :
    (cycle analogRead s).loops = 0 ∧
    (cycle analogRead s).next_print = wrapULong (s.next_print + REPORT_INTERVAL) := by
  have h : ∀ (index : Fin 4) (t : State),
      (reportChannel index t).loops = t.loops ∧
      (reportChannel index t).next_print = t.next_print := by
    intro index t
    rcases fin4_cases index with rfl | rfl | rfl | rfl <;>
      simp [reportChannel, reportSwitch] <;> split_ifs <;> simp
  simp [cycle, reportPass_eq, h]

theorem scenarioD0_eq : scenarioD0 = cycle readsOff (cycle readsOff startup70) := by
  unfold scenarioD0
  rw [run_append, run_window _ _ startup70 (by decide) (by decide),
    run_window _ _ _ (cycle_loops _ _).1 (by rw [(cycle_loops _ _).2]; decide)]

theorem scenarioD1_eq :
    scenarioD1 = cycle readsSteady (cycle readsOff (cycle readsOff startup70)) := by
  unfold scenarioD1
  rw [scenarioD0_eq,
    run_window _ _ _ (cycle_loops _ _).1
      (by rw [(cycle_loops _ _).2, (cycle_loops _ _).2]; decide)]

theorem scenarioD2_eq :
    scenarioD2 =
      cycle readsSteady (cycle readsSteady (cycle readsOff (cycle readsOff startup70))) := by
  unfold scenarioD2
  rw [scenarioD1_eq,
    run_window _ _ _ (cycle_loops _ _).1
      (by rw [(cycle_loops _ _).2, (cycle_loops _ _).2, (cycle_loops _ _).2]; decide)]

theorem flipBefore_eq :
    flipBefore =
      cycle readsOff (cycle readsSteady (cycle readsOff (cycle readsOff startup70))) := by
  unfold flipBefore
  rw [scenarioD1_eq,
    run_window _ _ _ (cycle_loops _ _).1
      (by rw [(cycle_loops _ _).2, (cycle_loops _ _).2, (cycle_loops _ _).2]; decide)]

theorem flipAt_eq :
    flipAt =
      cycle readsSteady
        (cycle readsOff (cycle readsSteady (cycle readsOff (cycle readsOff startup70)))) := by
  unfold flipAt
  rw [flipBefore_eq,
    run_window _ _ _ (cycle_loops _ _).1
      (by rw [(cycle_loops _ _).2, (cycle_loops _ _).2, (cycle_loops _ _).2,
        (cycle_loops _ _).2]; decide)]

theorem flipAfter_eq :
    flipAfter =
      cycle readsOff
        (cycle readsSteady
          (cycle readsOff (cycle readsSteady (cycle readsOff (cycle readsOff startup70))))) := by
  unfold flipAfter
  rw [flipAt_eq,
    run_window _ _ _ (cycle_loops _ _).1
      (by rw [(cycle_loops _ _).2, (cycle_loops _ _).2, (cycle_loops _ _).2,
        (cycle_loops _ _).2, (cycle_loops _ _).2]; decide)]

theorem flipAfterSteady_eq :
    flipAfterSteady =
      cycle readsSteady
        (cycle readsSteady
          (cycle readsOff (cycle readsSteady (cycle readsOff (cycle readsOff startup70))))) := by
  unfold flipAfterSteady
  rw [flipAt_eq,
    run_window _ _ _ (cycle_loops _ _).1
      (by rw [(cycle_loops _ _).2, (cycle_loops _ _).2, (cycle_loops _ _).2,
        (cycle_loops _ _).2, (cycle_loops _ _).2]; decide)]

/-! ## Pin levels after a report pass -/

theorem reportPass_trace (s : State) :
    (reportPass s).trace =
      s.trace ++ (reportEvents 0 s ++ reportEvents 1 s ++ reportEvents 2 s ++ reportEvents 3 s) := by
  rw [← emitted_reportPass]
  unfold emitted
  rw [reportPass_eq, reportChannel_trace, reportChannel_trace, reportChannel_trace,
    reportChannel_trace]
  simp [List.append_assoc]

theorem writesTo_append (pin : Nat) (es fs : List Event) :
    writesTo pin (es ++ fs) = writesTo pin es ++ writesTo pin fs := by
  simp [writesTo, List.filterMap_append]

theorem writesTo_of_channel (pin : Nat) (c : Nat) (es : List Event)
    (hpin : pin = OperationFull_Led_Pin ∨ pin = OperationPartial_Led_Pin) (hc : c ≠ 0)
    (h : ∀ e ∈ es, e.channel = some c) : writesTo pin es = [] := by
  unfold writesTo
  rw [List.filterMap_eq_nil_iff]
  intro e he
  have hch := h e he
  cases e with
  | digitalWrite p value =>
    by_cases hp : p = pin
    · exfalso
      subst hp
      have : Event.channel (Event.digitalWrite p value) = some 0 := by
        simp [Event.channel, hpin]
      rw [this] at hch
      exact hc (by simpa using hch.symm)
    · simp [hp]
  | send sensor status => rfl
  | saveState pos value => rfl

theorem pinLevel_reportPass (pin : Nat) (s : State)
    (hpin : pin = OperationFull_Led_Pin ∨ pin = OperationPartial_Led_Pin) :
    pinLevel pin (reportPass s).trace = pinLevel pin (s.trace ++ reportEvents 0 s) := by
  unfold pinLevel
  rw [reportPass_trace]
  simp only [writesTo_append]
  rw [writesTo_of_channel pin 1 _ hpin (by decide) (reportEvents_channel 1 s),
    writesTo_of_channel pin 2 _ hpin (by decide) (reportEvents_channel 2 s),
    writesTo_of_channel pin 3 _ hpin (by decide) (reportEvents_channel 3 s)]
  simp

theorem reportSwitch_zero_report (status : alarm_status) (s : State)
    (h : status ≠ s.lastLedOperation) (hskip : s.lastLedOperation_skip = false) :
    (reportSwitch 0 status s).trace =
      s.trace ++
        ([Event.digitalWrite OperationFull_Led_Pin HIGH,
          Event.digitalWrite OperationPartial_Led_Pin HIGH] ++
          activateLeds status ++ [Event.send Operation_Child_Id status]) := by
  simp [reportSwitch, h, hskip]

theorem pinLevel_actuation (status : alarm_status) (es : List Event) :
    pinLevel OperationPartial_Led_Pin
        (es ++
          ([Event.digitalWrite OperationFull_Led_Pin HIGH,
            Event.digitalWrite OperationPartial_Led_Pin HIGH] ++
            activateLeds status ++ [Event.send Operation_Child_Id status])) =
      some (if status = alarm_status.Blinking then LOW else HIGH) ∧
    pinLevel OperationFull_Led_Pin
        (es ++
          ([Event.digitalWrite OperationFull_Led_Pin HIGH,
            Event.digitalWrite OperationPartial_Led_Pin HIGH] ++
            activateLeds status ++ [Event.send Operation_Child_Id status])) =
      some (if status = alarm_status.Activated then LOW else HIGH) := by
  unfold pinLevel
  simp only [writesTo_append]
  cases status <;>
    simp [writesTo, activateLeds, OperationFull_Led_Pin, OperationPartial_Led_Pin]

/-! ## Sensor 0: the skip flag -/

set_option maxRecDepth 20000

theorem reportPass_zero_absorb (s : State) (h : ledInterpreter s 0 ≠ s.lastLedOperation)
    (hskip : s.lastLedOperation_skip = true) :
    emittedFor 0 s (reportPass s) = [] ∧
    (reportPass s).lastLedOperation = s.lastLedOperation ∧
    (reportPass s).lastLedOperation_skip = false := by
  have hl := lastLed_reportPass 0 s
  refine ⟨?_, ?_, ?_⟩
  · rw [emittedFor_reportPass, reportEvents, reportChannel_zero_absorb s h hskip]
    simp [emitted]
  · rw [reportChannel_zero_absorb s h hskip] at hl
    exact hl
  · rw [skip_reportPass, reportChannel_zero_absorb s h hskip]

theorem reportPass_zero_report (s : State) (h : ledInterpreter s 0 ≠ s.lastLedOperation)
    (hskip : s.lastLedOperation_skip = false) :
    emittedFor 0 s (reportPass s) =
      [Event.digitalWrite OperationFull_Led_Pin HIGH,
       Event.digitalWrite OperationPartial_Led_Pin HIGH] ++
      activateLeds (ledInterpreter s 0) ++
      [Event.send Operation_Child_Id (ledInterpreter s 0)] ∧
    notificationsFor 0 (emitted s (reportPass s)) = [ledInterpreter s 0] ∧
    (reportPass s).lastLedOperation = ledInterpreter s 0 ∧
    (reportPass s).lastLedOperation_skip = true := by
  have hl := lastLed_reportPass 0 s
  have hev : emittedFor 0 s (reportPass s) =
      [Event.digitalWrite OperationFull_Led_Pin HIGH,
       Event.digitalWrite OperationPartial_Led_Pin HIGH] ++
      activateLeds (ledInterpreter s 0) ++
      [Event.send Operation_Child_Id (ledInterpreter s 0)] := by
    rw [emittedFor_reportPass, reportEvents, reportChannel_zero_report s h hskip]
    simp [emitted]
  refine ⟨hev, ?_, ?_, ?_⟩
  · rw [notificationsFor_emitted, hev, notificationsFor_append, notificationsFor_append,
      notificationsFor_activateLeds]
    simp [notificationsFor, Operation_Child_Id]
  · rw [reportChannel_zero_report s h hskip] at hl
    exact hl
  · rw [skip_reportPass, reportChannel_zero_report s h hskip]

theorem reportPass_zero_keep (s : State) (h : ledInterpreter s 0 = s.lastLedOperation) :
    emittedFor 0 s (reportPass s) = [] ∧
    (reportPass s).lastLedOperation = s.lastLedOperation ∧
    (reportPass s).lastLedOperation_skip = s.lastLedOperation_skip := by
  have hl := lastLed_reportPass 0 s
  have h1 : ledInterpreter s 0 = lastLed s 0 := h
  refine ⟨?_, ?_, ?_⟩
  · rw [emittedFor_reportPass, reportEvents_of_eq 0 s h1]
  · rw [reportChannel_of_eq 0 s h1] at hl
    exact hl
  · rw [skip_reportPass, reportChannel_of_eq 0 s h1]

theorem activateLeds_eq (status : alarm_status) :
    activateLeds status =
      (if status = alarm_status.Blinking then
        [Event.digitalWrite OperationPartial_Led_Pin LOW]
      else if status = alarm_status.Activated then
        [Event.digitalWrite OperationFull_Led_Pin LOW]
      else []) := by
  cases status <;> rfl

theorem pinLevel_zero_report (s : State) (h : ledInterpreter s 0 ≠ s.lastLedOperation)
    (hskip : s.lastLedOperation_skip = false) :
    pinLevel OperationPartial_Led_Pin (reportPass s).trace =
      some (if ledInterpreter s 0 = alarm_status.Blinking then LOW else HIGH) ∧
    pinLevel OperationFull_Led_Pin (reportPass s).trace =
      some (if ledInterpreter s 0 = alarm_status.Activated then LOW else HIGH) := by
  have hev : reportEvents 0 s =
      [Event.digitalWrite OperationFull_Led_Pin HIGH,
       Event.digitalWrite OperationPartial_Led_Pin HIGH] ++
      activateLeds (ledInterpreter s 0) ++
      [Event.send Operation_Child_Id (ledInterpreter s 0)] := by
    rw [reportEvents, reportChannel_zero_report s h hskip]
    simp [emitted]
  rw [pinLevel_reportPass _ s (Or.inr rfl), pinLevel_reportPass _ s (Or.inl rfl), hev]
  exact pinLevel_actuation (ledInterpreter s 0) s.trace

/-- C5: on sensor 0, a status that differs from the last-reported one is
absorbed when the skip flag is set (no effect of sensor 0 is added, the
last-reported status is kept, the flag is cleared) and reported when the flag
is clear: pin 8 and pin 7 are written `HIGH`, then pin 7 is written `LOW` for
`Blinking`, pin 8 is written `LOW` for `Activated` and no pin for any other
status, then exactly one notification carrying the status is sent; after the
pass pin 7 is `LOW` iff the status is `Blinking` and pin 8 is `LOW` iff it is
`Activated`, the status is last-reported and the flag is set again.  Sampling
between two passes keeps flag, last-reported status and trace. -/
theorem operation_change_debounced (s : State)
    (h : ledInterpreter s 0 ≠ s.lastLedOperation) :
    (s.lastLedOperation_skip = true →
      emittedFor 0 s (reportPass s) = [] ∧
      (reportPass s).lastLedOperation = s.lastLedOperation ∧
      (reportPass s).lastLedOperation_skip = false) ∧
    (s.lastLedOperation_skip = false →
      emittedFor 0 s (reportPass s) =
        [Event.digitalWrite OperationFull_Led_Pin HIGH,
         Event.digitalWrite OperationPartial_Led_Pin HIGH] ++
        (if ledInterpreter s 0 = alarm_status.Blinking then
          [Event.digitalWrite OperationPartial_Led_Pin LOW]
        else if ledInterpreter s 0 = alarm_status.Activated then
          [Event.digitalWrite OperationFull_Led_Pin LOW]
        else []) ++
        [Event.send Operation_Child_Id (ledInterpreter s 0)] ∧
      pinLevel OperationPartial_Led_Pin (reportPass s).trace =
        some (if ledInterpreter s 0 = alarm_status.Blinking then LOW else HIGH) ∧
      pinLevel OperationFull_Led_Pin (reportPass s).trace =
        some (if ledInterpreter s 0 = alarm_status.Activated then LOW else HIGH) ∧
      notificationsFor 0 (emitted s (reportPass s)) = [ledInterpreter s 0] ∧
      (reportPass s).lastLedOperation = ledInterpreter s 0 ∧
      (reportPass s).lastLedOperation_skip = true) ∧
    (∀ analogRead : Fin 4 → Int,
      (samplingPass analogRead s).lastLedOperation = s.lastLedOperation ∧
      (samplingPass analogRead s).lastLedOperation_skip = s.lastLedOperation_skip ∧
      (samplingPass analogRead s).trace = s.trace) := by
  refine ⟨reportPass_zero_absorb s h, ?_, fun a => samplingPass_frame a s⟩
  intro hskip
  obtain ⟨r1, r2, r3, r4⟩ := reportPass_zero_report s h hskip
  obtain ⟨p1, p2⟩ := pinLevel_zero_report s h hskip
  rw [activateLeds_eq] at r1
  exact ⟨r1, p1, p2, r2, r3, r4⟩

/-- Witness of C5: the first pass from startup absorbs `Desactivated`; with
the flag clear, `Blinking` is reported with pin 7 written `LOW`
(`blinkingDue`), `Activated` with pin 8 written `LOW` (`steadySecond`) and
`Desactivated` with neither (`afterFirstPass`). -/
theorem operation_change_debounced_witness :
    (ledInterpreter startup70 0 ≠ startup70.lastLedOperation ∧
      startup70.lastLedOperation_skip = true ∧
      emittedFor 0 startup70 (reportPass startup70) = [] ∧
      (reportPass startup70).lastLedOperation = startup70.lastLedOperation ∧
      (reportPass startup70).lastLedOperation_skip = false) ∧
    (blinkingDue.lastLedOperation_skip = false ∧
      emittedFor 0 blinkingDue (reportPass blinkingDue) =
        [Event.digitalWrite 8 1, Event.digitalWrite 7 1, Event.digitalWrite 7 0,
         Event.send 0 alarm_status.Blinking]) ∧
    (steadySecond.lastLedOperation_skip = false ∧
      emittedFor 0 steadySecond (reportPass steadySecond) =
        [Event.digitalWrite 8 1, Event.digitalWrite 7 1, Event.digitalWrite 8 0,
         Event.send 0 alarm_status.Activated]) ∧
    (ledInterpreter afterFirstPass 0 ≠ afterFirstPass.lastLedOperation ∧
      afterFirstPass.lastLedOperation_skip = false ∧
      emittedFor 0 afterFirstPass (reportPass afterFirstPass) =
        [Event.digitalWrite 8 1, Event.digitalWrite 7 1,
         Event.send 0 alarm_status.Desactivated] ∧
      notificationsFor 0 (emitted afterFirstPass (reportPass afterFirstPass)) =
        [ledInterpreter afterFirstPass 0] ∧
      (reportPass afterFirstPass).lastLedOperation_skip = true) :=
  ⟨⟨by decide, by decide,
    (operation_change_debounced startup70 (by decide)).1 (by decide)⟩,
   ⟨by decide,
    (((operation_change_debounced blinkingDue (by decide)).2.1 (by decide)).1).trans
      (by decide)⟩,
   ⟨by decide,
    (((operation_change_debounced steadySecond (by decide)).2.1 (by decide)).1).trans
      (by decide)⟩,
   ⟨by decide, by decide,
    (((operation_change_debounced afterFirstPass (by decide)).2.1 (by decide)).1).trans
      (by decide),
    ((operation_change_debounced afterFirstPass (by decide)).2.1 (by decide)).2.2.2.1,
    ((operation_change_debounced afterFirstPass (by decide)).2.1 (by decide)).2.2.2.2.2⟩⟩

/-- C6, as the claim states it, fails on the run `scenarioD0`, `scenarioD1`,
`scenarioD2` of `loop`: with the flag set and `Desactivated` last reported, the
first window under `readsSteady` yields `Activated` and adds no effect of
sensor 0, but the second window, which yields `Activated` again, writes the
mode pins and sends the notification. -/
theorem scenarioD_second_cycle_reports :
    scenarioD0.lastLedOperation_skip = true ∧
    scenarioD0.lastLedOperation = alarm_status.Desactivated ∧
    ledInterpreter (samplingPass readsSteady scenarioD0) 0 = alarm_status.Activated ∧
    scenarioD1 = cycle readsSteady scenarioD0 ∧
    emittedFor 0 scenarioD0 scenarioD1 = [] ∧
    ledInterpreter (samplingPass readsSteady scenarioD1) 0 = alarm_status.Activated ∧
    scenarioD2 = cycle readsSteady scenarioD1 ∧
    emittedFor 0 scenarioD1 scenarioD2 =
      [Event.digitalWrite 8 1, Event.digitalWrite 7 1, Event.digitalWrite 8 0,
       Event.send 0 alarm_status.Activated] := by
  refine ⟨?_, ?_, ?_, ?_, ?_, ?_, ?_, ?_⟩
  · rw [scenarioD0_eq]; decide
  · rw [scenarioD0_eq]; decide
  · rw [scenarioD0_eq]; decide
  · rw [scenarioD1_eq, scenarioD0_eq]
  · rw [scenarioD1_eq, scenarioD0_eq]; decide
  · rw [scenarioD1_eq]; decide
  · rw [scenarioD2_eq, scenarioD1_eq]
  · rw [scenarioD2_eq, scenarioD1_eq]; decide

/-- C6, amended: with the skip flag set and `Desactivated` last reported, a
pass that resolves `Activated` on sensor 0 adds no effect of sensor 0 and keeps
`Desactivated` as last-reported; the next pass, in any state that kept flag
and last-reported status and resolves `Activated` again, still differs from
the last-reported status and reports it: mode pins written, one notification
carrying `Activated`, last-reported set to `Activated`, flag set again. -/
theorem steady_twice_reports_second (s t : State)
    (hskip : s.lastLedOperation_skip = true)
    (hlast : s.lastLedOperation = alarm_status.Desactivated)
    (h1 : ledInterpreter s 0 = alarm_status.Activated)
    (hflag : t.lastLedOperation_skip = (reportPass s).lastLedOperation_skip)
    (hkept : t.lastLedOperation = (reportPass s).lastLedOperation)
    (h2 : ledInterpreter t 0 = alarm_status.Activated) :
    emittedFor 0 s (reportPass s) = [] ∧
    (reportPass s).lastLedOperation = alarm_status.Desactivated ∧
    emittedFor 0 t (reportPass t) =
      [Event.digitalWrite OperationFull_Led_Pin HIGH,
       Event.digitalWrite OperationPartial_Led_Pin HIGH,
       Event.digitalWrite OperationFull_Led_Pin LOW,
       Event.send Operation_Child_Id alarm_status.Activated] ∧
    notificationsFor 0 (emitted t (reportPass t)) = [alarm_status.Activated] ∧
    (reportPass t).lastLedOperation = alarm_status.Activated ∧
    (reportPass t).lastLedOperation_skip = true := by
  have hs : ledInterpreter s 0 ≠ s.lastLedOperation := by rw [h1, hlast]; decide
  obtain ⟨a1, a2, a3⟩ := reportPass_zero_absorb s hs hskip
  have ht : ledInterpreter t 0 ≠ t.lastLedOperation := by
    rw [h2, hkept, a2, hlast]; decide
  obtain ⟨b1, b2, b3, b4⟩ := reportPass_zero_report t ht (by rw [hflag, a3])
  rw [h2] at b1 b2 b3
  exact ⟨a1, by rw [a2, hlast], by simpa [activateLeds] using b1, b2, b3, b4⟩

/-- Witness of the amended C6: the third and fourth pass from startup, under
readings that keep the signal of every sensor `LOW`. -/
theorem steady_twice_reports_second_witness :
    emittedFor 0 steadyFirst (reportPass steadyFirst) = [] ∧
    (reportPass steadyFirst).lastLedOperation = alarm_status.Desactivated ∧
    emittedFor 0 steadySecond (reportPass steadySecond) =
      [Event.digitalWrite OperationFull_Led_Pin HIGH,
       Event.digitalWrite OperationPartial_Led_Pin HIGH,
       Event.digitalWrite OperationFull_Led_Pin LOW,
       Event.send Operation_Child_Id alarm_status.Activated] ∧
    notificationsFor 0 (emitted steadySecond (reportPass steadySecond)) =
      [alarm_status.Activated] ∧
    (reportPass steadySecond).lastLedOperation = alarm_status.Activated ∧
    (reportPass steadySecond).lastLedOperation_skip = true :=
  steady_twice_reports_second steadyFirst steadySecond (by decide) (by decide) (by decide)
    (by decide) (by decide) (by decide)

/-- C7, as the claim states it, fails on the run `flipBefore`, `flipAt`,
`flipAfter` of `loop`: an earlier change was absorbed, the window before the
flip and the window after it both resolve the status last reported before the
flip, the flip window resolves another status, and the flip window writes the
mode pins and sends a notification.  The same holds when the window after the
flip is read against the status last reported by then (`flipAfterSteady`). -/
theorem single_cycle_flip_reported :
    flipBefore = cycle readsOff scenarioD1 ∧
    ledInterpreter (samplingPass readsOff scenarioD1) 0 = scenarioD1.lastLedOperation ∧
    flipBefore.lastLedOperation = scenarioD1.lastLedOperation ∧
    flipAt = cycle readsSteady flipBefore ∧
    ledInterpreter (samplingPass readsSteady flipBefore) 0 ≠ flipBefore.lastLedOperation ∧
    flipAfter = cycle readsOff flipAt ∧
    ledInterpreter (samplingPass readsOff flipAt) 0 = flipBefore.lastLedOperation ∧
    flipAfterSteady = cycle readsSteady flipAt ∧
    ledInterpreter (samplingPass readsSteady flipAt) 0 = flipAt.lastLedOperation ∧
    emittedFor 0 flipBefore flipAt =
      [Event.digitalWrite 8 1, Event.digitalWrite 7 1, Event.digitalWrite 8 0,
       Event.send 0 alarm_status.Activated] := by
  refine ⟨?_, ?_, ?_, ?_, ?_, ?_, ?_, ?_, ?_, ?_⟩
  · rw [flipBefore_eq, scenarioD1_eq]
  · rw [scenarioD1_eq]; decide
  · rw [flipBefore_eq, scenarioD1_eq]; decide
  · rw [flipAt_eq, flipBefore_eq]
  · rw [flipBefore_eq]; decide
  · rw [flipAfter_eq, flipAt_eq]
  · rw [flipAt_eq, flipBefore_eq]; decide
  · rw [flipAfterSteady_eq, flipAt_eq]
  · rw [flipAt_eq]; decide
  · rw [flipAt_eq, flipBefore_eq]; decide

/-- C7, amended: in every state, a pass whose status on sensor 0 differs from
the last-reported one adds no effect of sensor 0 and keeps the last-reported
status when the skip flag is set; when the flag is clear the pass reports,
with one notification carrying the status, whatever the passes before and
after resolve; and a pass whose status equals the last-reported one leaves the
flag as it is, so an absorbed change keeps the flag clear until the next
differing pass. -/
theorem single_flip_hidden_iff_flag_set :
    (∀ s : State, s.lastLedOperation_skip = true →
      ledInterpreter s 0 ≠ s.lastLedOperation →
      emittedFor 0 s (reportPass s) = [] ∧
      (reportPass s).lastLedOperation = s.lastLedOperation) ∧
    (∀ s : State, s.lastLedOperation_skip = false →
      ledInterpreter s 0 ≠ s.lastLedOperation →
      notificationsFor 0 (emitted s (reportPass s)) = [ledInterpreter s 0] ∧
      (reportPass s).lastLedOperation = ledInterpreter s 0) ∧
    (∀ s : State, ledInterpreter s 0 = s.lastLedOperation →
      (reportPass s).lastLedOperation_skip = s.lastLedOperation_skip ∧
      emittedFor 0 s (reportPass s) = []) := by
  refine ⟨?_, ?_, ?_⟩
  · intro s hskip h
    exact ⟨(reportPass_zero_absorb s h hskip).1, (reportPass_zero_absorb s h hskip).2.1⟩
  · intro s hskip h
    exact ⟨(reportPass_zero_report s h hskip).2.1, (reportPass_zero_report s h hskip).2.2.1⟩
  · intro s h
    exact ⟨(reportPass_zero_keep s h).2.2, (reportPass_zero_keep s h).1⟩

/-- Witness of the amended C7: a flip with the flag set (`steadyFirst`), a
flip with the flag clear (`steadySecond`), and a pass without change
(`afterSecondPass`). -/
theorem single_flip_hidden_iff_flag_set_witness :
    (emittedFor 0 steadyFirst (reportPass steadyFirst) = [] ∧
      (reportPass steadyFirst).lastLedOperation = steadyFirst.lastLedOperation) ∧
    (notificationsFor 0 (emitted steadySecond (reportPass steadySecond)) =
        [ledInterpreter steadySecond 0] ∧
      (reportPass steadySecond).lastLedOperation = ledInterpreter steadySecond 0) ∧
    ((reportPass afterSecondPass).lastLedOperation_skip =
        afterSecondPass.lastLedOperation_skip ∧
      emittedFor 0 afterSecondPass (reportPass afterSecondPass) = []) :=
  ⟨single_flip_hidden_iff_flag_set.1 steadyFirst (by decide) (by decide),
   single_flip_hidden_iff_flag_set.2.1 steadySecond (by decide) (by decide),
   single_flip_hidden_iff_flag_set.2.2 afterSecondPass (by decide)⟩

/-! ## A run that fills the edge counter -/

theorem sampleChannel_blinks_other (index other : Fin 4) (h : other ≠ index) (level : Int)
    (s : State) : (sampleChannel index level s).blinks other = s.blinks other := by
  unfold sampleChannel
  simp only []
  split_ifs <;> simp [Function.update_noteq h]

theorem samplingPass_blinks_zero (analogRead : Fin 4 → Int) (s : State) :
    (samplingPass analogRead s).blinks 0 =
      if lightLevel (analogRead 0) < (s.levelThresholds 0 : Int) ∧ s.states 0 ≠ LOW then
        wrapInt16 (s.blinks 0 + 1)
      else s.blinks 0 := by
  rw [samplingPass_eq, sampleChannel_blinks_other 3 0 (by decide),
    sampleChannel_blinks_other 2 0 (by decide), sampleChannel_blinks_other 1 0 (by decide),
    sampleChannel_blinks_self]

theorem loop_of_closed (analogRead : Fin 4 → Int) (millis : Nat) (s : State)
    (h : millis < s.next_print) :
    (loop analogRead millis s).blinks = (samplingPass analogRead s).blinks ∧
    (loop analogRead millis s).states = (samplingPass analogRead s).states ∧
    (loop analogRead millis s).levelThresholds = s.levelThresholds ∧
    (loop analogRead millis s).next_print = s.next_print := by
  have hnp := (samplingPass_loops analogRead s).2
  have hthr := samplingPass_levelThresholds analogRead s
  unfold loop
  dsimp only
  split_ifs with h1 h2
  · rw [hnp] at h2
    omega
  · exact ⟨rfl, rfl, hthr, hnp⟩
  · exact ⟨rfl, rfl, hthr, hnp⟩

theorem alternating_succ (k : Nat) :
    alternating (k + 1) = alternating k ++ [(readsSteady, 0), (readsOff, 0)] := rfl

theorem run_pair (a b : (Fin 4 → Int) × Nat) (s : State) :
    run [a, b] s = loop b.1 b.2 (loop a.1 a.2 s) := rfl

theorem run_alternating (k : Nat) (hk : k ≤ 32767) :
    (run (alternating k) startup70).blinks 0 = k ∧
    (run (alternating k) startup70).states 0 = HIGH ∧
    (run (alternating k) startup70).levelThresholds 0 = 70 ∧
    (run (alternating k) startup70).next_print = 5000 := by
  induction k with
  | zero => decide
  | succ k ih =>
    obtain ⟨hb, hs, ht, hn⟩ := ih (by omega)
    rw [alternating_succ, run_append, run_pair]
    generalize run (alternating k) startup70 = t at hb hs ht hn
    dsimp only
    obtain ⟨b1, s1, t1, n1⟩ := loop_of_closed readsSteady 0 t (by omega)
    have hb1 : (loop readsSteady 0 t).blinks 0 = k + 1 := by
      rw [b1, samplingPass_blinks_zero, ht, hs, hb]
      rw [if_pos ⟨by decide, by decide⟩]
      exact wrapInt16_succ _ (by omega) (by omega)
    have hs1 : (loop readsSteady 0 t).states 0 = LOW := by
      rw [s1, samplingPass_states, ht]
      rfl
    have ht1 : (loop readsSteady 0 t).levelThresholds 0 = 70 := by rw [t1, ht]
    have hn1 : (loop readsSteady 0 t).next_print = 5000 := by rw [n1, hn]
    generalize loop readsSteady 0 t = u at hb1 hs1 ht1 hn1
    obtain ⟨b2, s2, t2, n2⟩ := loop_of_closed readsOff 0 u (by omega)
    refine ⟨?_, ?_, ?_, ?_⟩
    · rw [b2, samplingPass_blinks_zero, ht1, hs1, hb1]
      rw [if_neg (fun h => h.2 rfl)]
      push_cast
      rfl
    · rw [s2, samplingPass_states, ht1]
      rfl
    · rw [t2, ht1]
    · rw [n2, hn1]

theorem overflow_after_alternating (k : Nat) (hk : k = 32767) :
    (run (alternating k) startup70).states 0 = HIGH ∧
    (60 : Int) < ((run (alternating k) startup70).levelThresholds 0 : Int) ∧
    (run (alternating k) startup70).blinks 0 = 32767 ∧
    (sampleChannel 0 60 (run (alternating k) startup70)).blinks 0 = -32768 ∧
    (sampleChannel 0 60 (run (alternating k) startup70)).blinks 0 ≠
      (run (alternating k) startup70).blinks 0 + 1 := by
  obtain ⟨hb, hs, ht, _⟩ := run_alternating k (by omega)
  generalize run (alternating k) startup70 = t at hb hs ht
  have hb1 : t.blinks 0 = 32767 := by rw [hb, hk]; rfl
  have hstep : (sampleChannel 0 60 t).blinks 0 = -32768 := by
    rw [sampleChannel_blinks_self, ht, hs, hb1]
    rw [if_pos ⟨by decide, by decide⟩]
    rfl
  refine ⟨hs, ?_, hb1, hstep, ?_⟩
  · rw [ht]
    decide
  · rw [hstep, hb1]
    decide

/-- C9, as the claim states it, fails in the state 65534 calls of `loop` reach
from startup under alternating readings while the clock has not reached
`next_print`: the counter holds 32767, the stored signal is `HIGH`, level 60
is below threshold 70, and the increment leaves -32768 in `blinks[0]`, not
32768. -/
theorem sampleChannel_increment_overflows :
    (run (alternating 32767) startup70).states 0 = HIGH ∧
    (60 : Int) < ((run (alternating 32767) startup70).levelThresholds 0 : Int) ∧
    (run (alternating 32767) startup70).blinks 0 = 32767 ∧
    (sampleChannel 0 60 (run (alternating 32767) startup70)).blinks 0 = -32768 ∧
    (sampleChannel 0 60 (run (alternating 32767) startup70)).blinks 0 ≠
      (run (alternating 32767) startup70).blinks 0 + 1 :=
  overflow_after_alternating 32767 rfl

/-! ## Reconfiguration and startup -/

/-- C11 fails on the code: for the request of scenario E, threshold 150 for
sensor 2, `receive` passes 150 to `saveState` and leaves 150 in
`levelThresholds[2]`, not 99; `before` would load the same stored byte as
99. -/
theorem receive_does_not_clamp :
    (receive scenarioE startup70).levelThresholds 2 = 150 ∧
    emitted startup70 (receive scenarioE startup70) = [Event.saveState 2 150] ∧
    (before (fun _ => 150) (initial 0)).levelThresholds 2 = 99 := by
  decide

theorem before_levelThresholds (loadState : Fin 4 → Nat) (s : State) (index : Fin 4) :
    (before loadState s).levelThresholds index = min (loadState index % 256) 99 := by
  have h : ∀ n : Nat, (if 99 < n then 99 else n) = min n 99 := by
    intro n
    split_ifs <;> omega
  rcases fin4_cases index with rfl | rfl | rfl | rfl <;>
    simp [before, beforeChannel, Function.update, h]

theorem before_lastLed (loadState : Fin 4 → Nat) (s : State) (index : Fin 4) :
    lastLed (before loadState s) index = lastLed s index := by
  rcases fin4_cases index with rfl | rfl | rfl | rfl <;>
    simp [before, beforeChannel, lastLed]

/-- C12: whatever the configuration store holds, after `before` every sensor
has the stored byte capped at 99 for threshold (the stored value itself,
capped, when it is a byte), hence a threshold of at most 99, `blinks` 0 and
`states` `HIGH`, and its last-reported status is `Unknown`. -/
theorem before_startup_state (loadState : Fin 4 → Nat) (millis0 : Nat) (index : Fin 4) :
    (before loadState (initial millis0)).levelThresholds index =
      min (loadState index % 256) 99 ∧
    (loadState index ≤ 255 →
      (before loadState (initial millis0)).levelThresholds index = min (loadState index) 99) ∧
    (before loadState (initial millis0)).levelThresholds index ≤ 99 ∧
    (before loadState (initial millis0)).blinks index = 0 ∧
    (before loadState (initial millis0)).states index = HIGH ∧
    lastLed (before loadState (initial millis0)) index = alarm_status.Unknown := by
  refine ⟨before_levelThresholds _ _ _, ?_, ?_, before_blinks _ _ _, before_states _ _ _, ?_⟩
  · intro h
    rw [before_levelThresholds, Nat.mod_eq_of_lt (by omega)]
  · rw [before_levelThresholds]
    omega
  · rw [before_lastLed]
    rcases fin4_cases index with rfl | rfl | rfl | rfl <;> rfl

/-- Witness of C12: a store that holds 200 for sensor 1. -/
theorem before_startup_state_witness :
    (200 : Nat) ≤ 255 ∧
    (before (fun _ => 200) (initial 0)).levelThresholds 1 = min 200 99 :=
  ⟨by decide, (before_startup_state (fun _ => 200) 0 1).2.1 (by decide)⟩

/-- C15: `receive` leaves `blinks`, `states`, the four last-reported statuses,
the skip flag, `loops` and `next_print` as they are, and the threshold of
every sensor other than the one the message addresses. -/
theorem receive_frame (message : Message) (s : State) :
    (receive message s).blinks = s.blinks ∧
    (receive message s).states = s.states ∧
    (∀ index, lastLed (receive message s) index = lastLed s index) ∧
    (receive message s).lastLedOperation_skip = s.lastLedOperation_skip ∧
    (receive message s).loops = s.loops ∧
    (receive message s).next_print = s.next_print ∧
    (∀ index, index ≠ message.getSensor →
      (receive message s).levelThresholds index = s.levelThresholds index) := by
  unfold receive
  split_ifs with h
  · refine ⟨rfl, rfl, fun _ => rfl, rfl, rfl, rfl, ?_⟩
    intro index hne
    simp [Function.update_noteq hne]
  · exact ⟨rfl, rfl, fun _ => rfl, rfl, rfl, rfl, fun _ _ => rfl⟩

/-- Witness of C15: the request of scenario E leaves the threshold of sensor 0
at 70. -/
theorem receive_frame_witness :
    (0 : Fin 4) ≠ scenarioE.getSensor ∧
    (receive scenarioE startup70).levelThresholds 0 = startup70.levelThresholds 0 :=
  ⟨by decide, (receive_frame scenarioE startup70).2.2.2.2.2.2 0 (by decide)⟩

/-! ## The signal sampler -/

theorem lightLevel_eq (raw : Int) (h0 : 0 ≤ raw) (h1 : raw ≤ 1023) :
    lightLevel raw = (1023 - raw) * 100 / 1023 := by
  unfold lightLevel wrapInt16
  rw [Int.tdiv_eq_ediv (by omega) (by omega)]
  omega

/-- C17: for a raw reading between 0 and 1023 the level, read in exact
arithmetic, is the floor of `(1023 - raw) * 100 / 1023`, lies between 0 and
100, does not increase when the raw reading grows, is 0 at 1023 and 100 at
0. -/
theorem lightLevel_range :
    (∀ raw : Int, 0 ≤ raw → raw ≤ 1023 →
      lightLevel raw = (1023 - raw) * 100 / 1023 ∧ 0 ≤ lightLevel raw ∧ lightLevel raw ≤ 100) ∧
    (∀ raw1 raw2 : Int, 0 ≤ raw1 → raw1 ≤ raw2 → raw2 ≤ 1023 →
      lightLevel raw2 ≤ lightLevel raw1) ∧
    lightLevel 1023 = 0 ∧ lightLevel 0 = 100 := by
  refine ⟨?_, ?_, by decide, by decide⟩
  · intro raw h0 h1
    rw [lightLevel_eq raw h0 h1]
    refine ⟨rfl, ?_, ?_⟩ <;> omega
  · intro raw1 raw2 h0 h12 h1
    rw [lightLevel_eq raw1 h0 (by omega), lightLevel_eq raw2 (by omega) h1]
    omega

/-- Witness of C17: raw readings 300 and 700. -/
theorem lightLevel_range_witness :
    (lightLevel 300 = (1023 - 300) * 100 / 1023 ∧ 0 ≤ lightLevel 300 ∧ lightLevel 300 ≤ 100) ∧
    lightLevel 700 ≤ lightLevel 300 :=
  ⟨lightLevel_range.1 300 (by decide) (by decide),
   lightLevel_range.2.1 300 700 (by decide) (by decide) (by decide)⟩

/-! ## The actuation of the outputs -/

/-- C13: when sensor 0 reports a status, the mode pins 8 and 7 are first both
written `HIGH` (inactive), then at most one of them `LOW` (active), then the
notification is sent; afterwards pin 7 (partial) is `LOW` iff the status is
`Blinking` and pin 8 (full) is `LOW` iff the status is `Activated`, so for any
other status both stay `HIGH`, and the two are never both `LOW`.  The same
levels hold at the end of the report pass. -/
theorem operation_actuation (status : alarm_status) (s : State)
    (h : status ≠ s.lastLedOperation) (hskip : s.lastLedOperation_skip = false) :
    emitted s (reportSwitch 0 status s) =
      [Event.digitalWrite OperationFull_Led_Pin HIGH,
       Event.digitalWrite OperationPartial_Led_Pin HIGH] ++
      activateLeds status ++ [Event.send Operation_Child_Id status] ∧
    pinLevel OperationPartial_Led_Pin (reportSwitch 0 status s).trace =
      some (if status = alarm_status.Blinking then LOW else HIGH) ∧
    pinLevel OperationFull_Led_Pin (reportSwitch 0 status s).trace =
      some (if status = alarm_status.Activated then LOW else HIGH) ∧
    ¬ (pinLevel OperationPartial_Led_Pin (reportSwitch 0 status s).trace = some LOW ∧
       pinLevel OperationFull_Led_Pin (reportSwitch 0 status s).trace = some LOW) ∧
    (status = ledInterpreter s 0 →
      pinLevel OperationPartial_Led_Pin (reportPass s).trace =
        some (if status = alarm_status.Blinking then LOW else HIGH) ∧
      pinLevel OperationFull_Led_Pin (reportPass s).trace =
        some (if status = alarm_status.Activated then LOW else HIGH)) := by
  have ht := reportSwitch_zero_report status s h hskip
  have hp := pinLevel_actuation status s.trace
  rw [← ht] at hp
  refine ⟨?_, hp.1, hp.2, ?_, ?_⟩
  · unfold emitted
    rw [ht]
    simp
  · rw [hp.1, hp.2]
    cases status <;> simp [LOW, HIGH]
  · intro hst
    subst hst
    have hev : reportEvents 0 s =
        [Event.digitalWrite OperationFull_Led_Pin HIGH,
         Event.digitalWrite OperationPartial_Led_Pin HIGH] ++
        activateLeds (ledInterpreter s 0) ++
        [Event.send Operation_Child_Id (ledInterpreter s 0)] := by
      rw [reportEvents, reportChannel_zero_report s h hskip]
      simp [emitted]
    rw [pinLevel_reportPass _ s (Or.inr rfl), pinLevel_reportPass _ s (Or.inl rfl), hev]
    exact pinLevel_actuation (ledInterpreter s 0) s.trace

/-- Witness of C13: the second pass from startup reports `Desactivated` on
sensor 0 and leaves both mode pins `HIGH`. -/
theorem operation_actuation_witness :
    alarm_status.Desactivated ≠ afterFirstPass.lastLedOperation ∧
    afterFirstPass.lastLedOperation_skip = false ∧
    pinLevel OperationPartial_Led_Pin
      (reportSwitch 0 alarm_status.Desactivated afterFirstPass).trace = some HIGH ∧
    pinLevel OperationFull_Led_Pin (reportPass afterFirstPass).trace = some HIGH :=
  ⟨by decide, by decide,
   (operation_actuation alarm_status.Desactivated afterFirstPass (by decide) (by decide)).2.1,
   ((operation_actuation alarm_status.Desactivated afterFirstPass (by decide)
      (by decide)).2.2.2.2 (by decide)).2⟩

/-- C14: when sensor 1, 2 or 3 reports a status, handling it adds one
notification and exactly one pin write, to its own pin (3, 4 and 5
respectively), `HIGH` iff the status is not `Desactivated` and `LOW` iff it is;
these are also all the effects of that sensor in the whole report pass. -/
theorem single_output_actuation (s : State) :
    (ledInterpreter s 1 ≠ s.lastLedTrigger →
      emitted s (reportChannel 1 s) =
        [Event.send 1 (ledInterpreter s 1),
         Event.digitalWrite 3
           (if ledInterpreter s 1 ≠ alarm_status.Desactivated then HIGH else LOW)] ∧
      emittedFor 1 s (reportPass s) = emitted s (reportChannel 1 s)) ∧
    (ledInterpreter s 2 ≠ s.lastLedBell →
      emitted s (reportChannel 2 s) =
        [Event.send 2 (ledInterpreter s 2),
         Event.digitalWrite 4
           (if ledInterpreter s 2 ≠ alarm_status.Desactivated then HIGH else LOW)] ∧
      emittedFor 2 s (reportPass s) = emitted s (reportChannel 2 s)) ∧
    (ledInterpreter s 3 ≠ s.lastLedMaintenance →
      emitted s (reportChannel 3 s) =
        [Event.send 3 (ledInterpreter s 3),
         Event.digitalWrite 5
           (if ledInterpreter s 3 ≠ alarm_status.Desactivated then HIGH else LOW)] ∧
      emittedFor 3 s (reportPass s) = emitted s (reportChannel 3 s)) ∧
    (∀ status : alarm_status,
      ((if status ≠ alarm_status.Desactivated then HIGH else LOW) = HIGH ↔
        status ≠ alarm_status.Desactivated) ∧
      ((if status ≠ alarm_status.Desactivated then HIGH else LOW) = LOW ↔
        status = alarm_status.Desactivated)) := by
  refine ⟨?_, ?_, ?_, ?_⟩
  · intro h
    have h1 : ¬ s.lastLedTrigger = ledInterpreter s 1 := fun e => h e.symm
    refine ⟨?_, emittedFor_reportPass 1 s⟩
    simp [emitted, reportChannel, reportSwitch, h1, Trigger_Child_Id, Trigger_Led_Pin]
  · intro h
    have h1 : ¬ s.lastLedBell = ledInterpreter s 2 := fun e => h e.symm
    refine ⟨?_, emittedFor_reportPass 2 s⟩
    simp [emitted, reportChannel, reportSwitch, h1, Bell_Child_Id, Bell_Led_Pin]
  · intro h
    have h1 : ¬ s.lastLedMaintenance = ledInterpreter s 3 := fun e => h e.symm
    refine ⟨?_, emittedFor_reportPass 3 s⟩
    simp [emitted, reportChannel, reportSwitch, h1, Maintenance_Child_Id, Maintenance_Led_Pin]
  · intro status
    cases status <;> simp [HIGH, LOW]

/-- Witness of C14: the first pass from startup on sensors 1, 2 and 3. -/
theorem single_output_actuation_witness :
    emitted startup70 (reportChannel 1 startup70) =
      [Event.send 1 (ledInterpreter startup70 1),
       Event.digitalWrite 3
         (if ledInterpreter startup70 1 ≠ alarm_status.Desactivated then HIGH else LOW)] ∧
    emittedFor 2 startup70 (reportPass startup70) =
      emitted startup70 (reportChannel 2 startup70) ∧
    emittedFor 3 startup70 (reportPass startup70) =
      emitted startup70 (reportChannel 3 startup70) :=
  ⟨((single_output_actuation startup70).1 (by decide)).1,
   ((single_output_actuation startup70).2.1 (by decide)).2,
   ((single_output_actuation startup70).2.2.1 (by decide)).2⟩

/-! ## The first report pass -/

theorem reportEvents_change_one (s : State) (h : ledInterpreter s 1 ≠ s.lastLedTrigger) :
    reportEvents 1 s =
      [Event.send 1 (ledInterpreter s 1),
       Event.digitalWrite 3
         (if ledInterpreter s 1 ≠ alarm_status.Desactivated then HIGH else LOW)] := by
  have h1 : ¬ s.lastLedTrigger = ledInterpreter s 1 := fun e => h e.symm
  simp [reportEvents, emitted, reportChannel, reportSwitch, h1, Trigger_Child_Id,
    Trigger_Led_Pin]

theorem reportEvents_change_two (s : State) (h : ledInterpreter s 2 ≠ s.lastLedBell) :
    reportEvents 2 s =
      [Event.send 2 (ledInterpreter s 2),
       Event.digitalWrite 4
         (if ledInterpreter s 2 ≠ alarm_status.Desactivated then HIGH else LOW)] := by
  have h1 : ¬ s.lastLedBell = ledInterpreter s 2 := fun e => h e.symm
  simp [reportEvents, emitted, reportChannel, reportSwitch, h1, Bell_Child_Id, Bell_Led_Pin]

theorem reportEvents_change_three (s : State)
    (h : ledInterpreter s 3 ≠ s.lastLedMaintenance) :
    reportEvents 3 s =
      [Event.send 3 (ledInterpreter s 3),
       Event.digitalWrite 5
         (if ledInterpreter s 3 ≠ alarm_status.Desactivated then HIGH else LOW)] := by
  have h1 : ¬ s.lastLedMaintenance = ledInterpreter s 3 := fun e => h e.symm
  simp [reportEvents, emitted, reportChannel, reportSwitch, h1, Maintenance_Child_Id,
    Maintenance_Led_Pin]

theorem ledInterpreter_ne_unknown (s : State) (index : Fin 4) :
    ledInterpreter s index ≠ alarm_status.Unknown := by
  unfold ledInterpreter
  split_ifs <;> simp

theorem sampleChannel_lastLed (index : Fin 4) (level : Int) (s : State) (other : Fin 4) :
    lastLed (sampleChannel index level s) other = lastLed s other := by
  unfold sampleChannel
  simp only []
  split_ifs <;> rfl

theorem samplingPass_lastLed (analogRead : Fin 4 → Int) (s : State) (index : Fin 4) :
    lastLed (samplingPass analogRead s) index = lastLed s index := by
  simp only [samplingPass_eq, sampleChannel_lastLed]

theorem sampled_frame (reads : List (Fin 4 → Int)) :
    ∀ s : State,
      (∀ index, lastLed (sampled reads s) index = lastLed s index) ∧
      (sampled reads s).lastLedOperation_skip = s.lastLedOperation_skip ∧
      (sampled reads s).trace = s.trace := by
  induction reads with
  | nil =>
    intro s
    exact ⟨fun _ => rfl, rfl, rfl⟩
  | cons a reads ih =>
    intro s
    obtain ⟨h1, h2, h3⟩ := ih (samplingPass a s)
    obtain ⟨_, f2, f3⟩ := samplingPass_frame a s
    refine ⟨?_, ?_, ?_⟩
    · intro index
      show lastLed (sampled reads (samplingPass a s)) index = _
      rw [h1, samplingPass_lastLed]
    · show (sampled reads (samplingPass a s)).lastLedOperation_skip = _
      rw [h2, f2]
    · show (sampled reads (samplingPass a s)).trace = _
      rw [h3, f3]

theorem before_skip (loadState : Fin 4 → Nat) (s : State) :
    (before loadState s).lastLedOperation_skip = s.lastLedOperation_skip := by
  simp [before, beforeChannel]

/-- C18: the led interpreter never yields `Unknown`; hence a report pass that
starts with every last-reported status `Unknown` and the skip flag set adds
exactly the notifications of sensors 1, 2 and 3, each followed by the write
of its pin, sends nothing for sensor 0 and leaves `lastLedOperation` at
`Unknown`; and whatever the store holds and the sensors read, the state
sampling reaches from startup is such a state. -/
theorem first_pass_notifications :
    (∀ (s : State) (index : Fin 4), ledInterpreter s index ≠ alarm_status.Unknown) ∧
    (∀ s : State, (∀ index, lastLed s index = alarm_status.Unknown) →
      s.lastLedOperation_skip = true →
      emitted s (reportPass s) =
        [Event.send 1 (ledInterpreter s 1),
         Event.digitalWrite 3
           (if ledInterpreter s 1 ≠ alarm_status.Desactivated then HIGH else LOW),
         Event.send 2 (ledInterpreter s 2),
         Event.digitalWrite 4
           (if ledInterpreter s 2 ≠ alarm_status.Desactivated then HIGH else LOW),
         Event.send 3 (ledInterpreter s 3),
         Event.digitalWrite 5
           (if ledInterpreter s 3 ≠ alarm_status.Desactivated then HIGH else LOW)] ∧
      notificationsFor 0 (emitted s (reportPass s)) = [] ∧
      notificationsFor 1 (emitted s (reportPass s)) = [ledInterpreter s 1] ∧
      notificationsFor 2 (emitted s (reportPass s)) = [ledInterpreter s 2] ∧
      notificationsFor 3 (emitted s (reportPass s)) = [ledInterpreter s 3] ∧
      (reportPass s).lastLedOperation = alarm_status.Unknown) ∧
    (∀ (loadState : Fin 4 → Nat) (millis0 : Nat) (reads : List (Fin 4 → Int)),
      (∀ index,
        lastLed (sampled reads (before loadState (initial millis0))) index =
          alarm_status.Unknown) ∧
      (sampled reads (before loadState (initial millis0))).lastLedOperation_skip = true) := by
  refine ⟨ledInterpreter_ne_unknown, ?_, ?_⟩
  · intro s hlast hskip
    have h0 : ledInterpreter s 0 ≠ s.lastLedOperation := by
      have := hlast 0
      simp only [lastLed] at this
      rw [this]
      exact ledInterpreter_ne_unknown s 0
    have h1 : ledInterpreter s 1 ≠ s.lastLedTrigger := by
      have := hlast 1
      simp only [lastLed] at this
      rw [this]
      exact ledInterpreter_ne_unknown s 1
    have h2 : ledInterpreter s 2 ≠ s.lastLedBell := by
      have := hlast 2
      simp only [lastLed] at this
      rw [this]
      exact ledInterpreter_ne_unknown s 2
    have h3 : ledInterpreter s 3 ≠ s.lastLedMaintenance := by
      have := hlast 3
      simp only [lastLed] at this
      rw [this]
      exact ledInterpreter_ne_unknown s 3
    have e0 : reportEvents 0 s = [] := by
      rw [reportEvents, reportChannel_zero_absorb s h0 hskip]
      simp [emitted]
    have hem : emitted s (reportPass s) =
        [Event.send 1 (ledInterpreter s 1),
         Event.digitalWrite 3
           (if ledInterpreter s 1 ≠ alarm_status.Desactivated then HIGH else LOW),
         Event.send 2 (ledInterpreter s 2),
         Event.digitalWrite 4
           (if ledInterpreter s 2 ≠ alarm_status.Desactivated then HIGH else LOW),
         Event.send 3 (ledInterpreter s 3),
         Event.digitalWrite 5
           (if ledInterpreter s 3 ≠ alarm_status.Desactivated then HIGH else LOW)] := by
      rw [emitted_reportPass, e0, reportEvents_change_one s h1, reportEvents_change_two s h2,
        reportEvents_change_three s h3]
      rfl
    refine ⟨hem, ?_, ?_, ?_, ?_, ?_⟩
    · rw [hem]; rfl
    · rw [hem]; rfl
    · rw [hem]; rfl
    · rw [hem]; rfl
    · have := (reportPass_zero_absorb s h0 hskip).2.1
      rw [this]
      exact hlast 0
  · intro loadState millis0 reads
    obtain ⟨f1, f2, _⟩ := sampled_frame reads (before loadState (initial millis0))
    refine ⟨?_, ?_⟩
    · intro index
      rw [f1, before_lastLed]
      rcases fin4_cases index with rfl | rfl | rfl | rfl <;> rfl
    · rw [f2, before_skip]
      rfl

/-- Witness of C18: the first pass from startup after one sampling pass under
`readsSteady`. -/
theorem first_pass_notifications_witness :
    notificationsFor 0
      (emitted (samplingPass readsSteady startup70)
        (reportPass (samplingPass readsSteady startup70))) = [] ∧
    notificationsFor 1
      (emitted (samplingPass readsSteady startup70)
        (reportPass (samplingPass readsSteady startup70))) =
      [ledInterpreter (samplingPass readsSteady startup70) 1] ∧
    (reportPass (samplingPass readsSteady startup70)).lastLedOperation =
      alarm_status.Unknown :=
  ⟨(first_pass_notifications.2.1 (samplingPass readsSteady startup70) (by decide)
      (by decide)).2.1,
   (first_pass_notifications.2.1 (samplingPass readsSteady startup70) (by decide)
      (by decide)).2.2.1,
   (first_pass_notifications.2.1 (samplingPass readsSteady startup70) (by decide)
      (by decide)).2.2.2.2.2⟩

/-! ## Change-only notification as an invariant -/

theorem changeOnly_keep (index : Fin 4) (s t : State) (h : ChangeOnly index s)
    (hl : lastLed t index = lastLed s index)
    (hn : notificationsFor index t.trace = notificationsFor index s.trace) :
    ChangeOnly index t := by
  unfold ChangeOnly lastNotified at *
  rw [hl, hn]
  exact h

theorem changeOnly_push (index : Fin 4) (s t : State) (status : alarm_status)
    (h : ChangeOnly index s) (hne : status ≠ lastLed s index)
    (hl : lastLed t index = status)
    (hn : notificationsFor index t.trace = notificationsFor index s.trace ++ [status]) :
    ChangeOnly index t := by
  unfold ChangeOnly lastNotified at *
  obtain ⟨h1, h2⟩ := h
  rw [hl, hn]
  refine ⟨?_, ?_⟩
  · simp
  · apply List.Chain'.append h2 (List.chain'_singleton status)
    intro x hx y hy
    simp at hy
    subst hy
    rw [Option.mem_def] at hx
    rw [hx] at h1
    simp at h1
    rw [← h1]
    exact fun e => hne e.symm

theorem notificationsFor_of_channel (index : Fin 4) (c : Nat) (es : List Event)
    (hc : c ≠ index.val) (h : ∀ e ∈ es, e.channel = some c) :
    notificationsFor index es = [] := by
  unfold notificationsFor
  rw [List.filterMap_eq_nil_iff]
  intro e he
  have hch := h e he
  cases e with
  | digitalWrite pin value => rfl
  | send sensor status =>
    have : sensor = c := by simpa [Event.channel] using hch
    subst this
    simp [hc]
  | saveState pos value => rfl

theorem notificationsFor_reportChannel (index : Fin 4) (s : State) (other : Fin 4) :
    notificationsFor other (reportChannel index s).trace =
      notificationsFor other s.trace ++ notificationsFor other (reportEvents index s) := by
  rw [reportChannel_trace, notificationsFor_append]

theorem reportEvents_zero_cases (s : State) :
    (reportEvents 0 s = [] ∧ (reportChannel 0 s).lastLedOperation = s.lastLedOperation) ∨
    (ledInterpreter s 0 ≠ s.lastLedOperation ∧
      notificationsFor 0 (reportEvents 0 s) = [ledInterpreter s 0] ∧
      (reportChannel 0 s).lastLedOperation = ledInterpreter s 0) := by
  by_cases h : ledInterpreter s 0 = s.lastLedOperation
  · left
    have h1 : ledInterpreter s 0 = lastLed s 0 := h
    exact ⟨reportEvents_of_eq 0 s h1, by rw [reportChannel_of_eq 0 s h1]⟩
  · cases hskip : s.lastLedOperation_skip with
    | true =>
      left
      rw [reportEvents, reportChannel_zero_absorb s h hskip]
      simp [emitted]
    | false =>
      right
      refine ⟨h, ?_, ?_⟩
      · rw [reportEvents, reportChannel_zero_report s h hskip]
        simp only [emitted, List.append_assoc, List.drop_left, notificationsFor_append,
          notificationsFor_activateLeds]
        rfl
      · rw [reportChannel_zero_report s h hskip]

theorem reportEvents_other_cases (index : Fin 4) (h0 : index ≠ 0) (s : State) :
    (reportEvents index s = [] ∧ ledInterpreter s index = lastLed s index) ∨
    (ledInterpreter s index ≠ lastLed s index ∧
      notificationsFor index (reportEvents index s) = [ledInterpreter s index]) := by
  by_cases h : ledInterpreter s index = lastLed s index
  · left
    exact ⟨reportEvents_of_eq index s h, h⟩
  · right
    refine ⟨h, ?_⟩
    rcases fin4_cases index with rfl | rfl | rfl | rfl
    · exact absurd rfl h0
    · rw [reportEvents_change_one s h]; rfl
    · rw [reportEvents_change_two s h]; rfl
    · rw [reportEvents_change_three s h]; rfl

theorem changeOnly_reportChannel (index other : Fin 4) (s : State)
    (h : ChangeOnly other s) : ChangeOnly other (reportChannel index s) := by
  by_cases hio : other = index
  · subst hio
    by_cases h0 : other = 0
    · subst h0
      rcases reportEvents_zero_cases s with ⟨he, hl⟩ | ⟨hne, hn, hl⟩
      · apply changeOnly_keep 0 s _ h
        · exact hl
        · rw [notificationsFor_reportChannel, he]
          simp [notificationsFor]
      · apply changeOnly_push 0 s _ (ledInterpreter s 0) h hne
        · exact hl
        · rw [notificationsFor_reportChannel, hn]
    · rcases reportEvents_other_cases other h0 s with ⟨he, hl⟩ | ⟨hne, hn⟩
      · apply changeOnly_keep other s _ h
        · rw [lastLed_reportChannel_self other h0, hl]
        · rw [notificationsFor_reportChannel, he]
          simp [notificationsFor]
      · apply changeOnly_push other s _ (ledInterpreter s other) h hne
        · exact lastLed_reportChannel_self other h0 s
        · rw [notificationsFor_reportChannel, hn]
  · apply changeOnly_keep other s _ h
    · exact lastLed_reportChannel index other hio s
    · rw [notificationsFor_reportChannel,
        notificationsFor_of_channel other index.val _
          (fun e => hio (Fin.ext e.symm)) (reportEvents_channel index s)]
      simp

theorem changeOnly_reportPass (index : Fin 4) (s : State) (h : ChangeOnly index s) :
    ChangeOnly index (reportPass s) := by
  rw [reportPass_eq]
  exact changeOnly_reportChannel 3 index _
    (changeOnly_reportChannel 2 index _
      (changeOnly_reportChannel 1 index _ (changeOnly_reportChannel 0 index s h)))

theorem changeOnly_loop (index : Fin 4) (analogRead : Fin 4 → Int) (millis : Nat) (s : State)
    (h : ChangeOnly index s) : ChangeOnly index (loop analogRead millis s) := by
  have hs : ChangeOnly index (samplingPass analogRead s) :=
    changeOnly_keep index s _ h (samplingPass_lastLed analogRead s index)
      (by rw [(samplingPass_frame analogRead s).2.2])
  unfold loop
  dsimp only
  split_ifs
  · apply changeOnly_reportPass
    exact changeOnly_keep index _ _ hs rfl rfl
  · exact changeOnly_keep index _ _ hs rfl rfl
  · exact changeOnly_keep index _ _ hs rfl rfl

theorem changeOnly_receive (index : Fin 4) (message : Message) (s : State)
    (h : ChangeOnly index s) : ChangeOnly index (receive message s) := by
  unfold receive
  dsimp only
  split_ifs
  · refine changeOnly_keep index s _ h rfl ?_
    simp only [notificationsFor_append]
    simp [notificationsFor]
  · exact h

theorem changeOnly_before (index : Fin 4) (loadState : Fin 4 → Nat) (millis0 : Nat) :
    ChangeOnly index (before loadState (initial millis0)) := by
  have ht : (before loadState (initial millis0)).trace = beforeWrites := by
    simp [before, beforeChannel, initial]
  have hn : notificationsFor index beforeWrites = [] := by
    rcases fin4_cases index with rfl | rfl | rfl | rfl <;> rfl
  unfold ChangeOnly lastNotified
  rw [ht, hn, before_lastLed]
  refine ⟨?_, List.chain'_nil⟩
  rcases fin4_cases index with rfl | rfl | rfl | rfl <;> rfl

theorem reachable_run (inputs : List ((Fin 4 → Int) × Nat)) :
    ∀ s : State, ReachableInRange s → ReachableInRange (run inputs s) := by
  induction inputs with
  | nil =>
    intro s h
    exact h
  | cons input inputs ih =>
    intro s h
    exact ih _ (ReachableInRange.byLoop input.1 input.2 s h)

/-- Change-only notification, for reconfigurations within the array: in every
state reached from startup by calls of `loop` and by calls of `receive` for
messages addressed to the sensors 0 to 3, the last-reported status of each
sensor is the status of the most recent notification sent for it (`Unknown`
when none was sent), and no two consecutive notifications for a sensor carry
the same status. -/
theorem change_only_notifications (s : State) (h : ReachableInRange s) (index : Fin 4) :
    lastLed s index = lastNotified index s.trace ∧
    List.Chain' (fun a b => a ≠ b) (notificationsFor index s.trace) := by
  have key : ChangeOnly index s := by
    induction h with
    | atStartup loadState millis0 => exact changeOnly_before index loadState millis0
    | byLoop analogRead millis s _ ih => exact changeOnly_loop index analogRead millis s ih
    | byReceive message s _ ih => exact changeOnly_receive index message s ih
  exact key

/-- An instance of the invariant: sensor 0 after the four windows of
`scenarioD2`, a request of threshold 150 for sensor 2 and one more call of
`loop`. -/
theorem change_only_notifications_instance :
    lastLed (loop readsOff 20000 (receive scenarioE scenarioD2)) 0 =
      lastNotified 0 (loop readsOff 20000 (receive scenarioE scenarioD2)).trace ∧
    List.Chain' (fun a b => a ≠ b)
      (notificationsFor 0 (loop readsOff 20000 (receive scenarioE scenarioD2)).trace) :=
  change_only_notifications _
    (ReachableInRange.byLoop _ _ _
      (ReachableInRange.byReceive _ _
        (reachable_run _ _ (reachable_run _ _ (reachable_run _ _
          (ReachableInRange.atStartup (fun _ => 70) 0))))))
    0

/-! ## The cadence of the report pass -/

theorem loop_of_gateOpen (analogRead : Fin 4 → Int) (millis : Nat) (s : State)
    (h : gateOpen millis s = true) :
    s.next_print ≤ millis ∧ loop analogRead millis s = cycle analogRead s := by
  unfold gateOpen at h
  simp only [Bool.and_eq_true, decide_eq_true_eq] at h
  exact ⟨h.2, loop_of_gate analogRead millis s h.1 h.2⟩

theorem loop_of_gateClosed (analogRead : Fin 4 → Int) (millis : Nat) (s : State)
    (h : gateOpen millis s = false) :
    (loop analogRead millis s).trace = s.trace ∧
    (loop analogRead millis s).next_print = s.next_print ∧
    (loop analogRead millis s).loops =
      (if wrapULong (s.loops + 1) = 10000 then 0 else wrapULong (s.loops + 1)) := by
  have hl := (samplingPass_loops analogRead s).1
  have hnp := (samplingPass_loops analogRead s).2
  have htr := (samplingPass_frame analogRead s).2.2
  unfold gateOpen at h
  simp only [Bool.and_eq_false_iff, decide_eq_false_iff_not] at h
  unfold loop
  dsimp only
  rw [hl]
  split_ifs with h1 h2
  · rw [hnp] at h2
    rcases h with h | h
    · exact absurd h1 h
    · exact absurd h2 h
  · exact ⟨htr, hnp, rfl⟩
  · exact ⟨htr, hnp, rfl⟩

theorem passTimes_append (xs : List ((Fin 4 → Int) × Nat)) :
    ∀ (ys : List ((Fin 4 → Int) × Nat)) (s : State),
      passTimes (xs ++ ys) s = passTimes xs s ++ passTimes ys (run xs s) := by
  induction xs with
  | nil =>
    intro ys s
    rfl
  | cons x xs ih =>
    intro ys s
    show _ ++ passTimes (xs ++ ys) _ = (_ ++ passTimes xs _) ++ passTimes ys (run xs _)
    rw [ih, List.append_assoc]

theorem passTimes_deadline (inputs : List ((Fin 4 → Int) × Nat)) :
    ∀ (s : State) (k t : Nat), (passTimes inputs s)[k]? = some t →
      s.next_print + 5000 * k < 4294967296 → s.next_print + 5000 * k ≤ t := by
  induction inputs with
  | nil =>
    intro s k t h _
    simp [passTimes] at h
  | cons x xs ih =>
    intro s k t h hfit
    unfold passTimes at h
    cases hg : gateOpen x.2 s with
    | true =>
      obtain ⟨hle, hcyc⟩ := loop_of_gateOpen x.1 x.2 s hg
      rw [hg] at h
      simp only [if_true, List.singleton_append] at h
      cases k with
      | zero =>
        simp at h
        omega
      | succ j =>
        simp only [List.getElem?_cons_succ] at h
        have hnp : (loop x.1 x.2 s).next_print = s.next_print + 5000 := by
          rw [hcyc, (cycle_loops x.1 s).2]
          unfold wrapULong REPORT_INTERVAL
          omega
        have := ih (loop x.1 x.2 s) j t h (by rw [hnp]; omega)
        rw [hnp] at this
        omega
    | false =>
      obtain ⟨_, hnp, _⟩ := loop_of_gateClosed x.1 x.2 s hg
      rw [hg] at h
      simp only [Bool.false_eq_true, if_false, List.nil_append] at h
      have := ih (loop x.1 x.2 s) k t h (by rw [hnp]; exact hfit)
      rw [hnp] at this
      exact this

theorem passTimes_replicate_idle (input : (Fin 4 → Int) × Nat) (n : Nat) :
    ∀ s : State, s.loops + n < 10000 →
      passTimes (List.replicate n input) s = [] ∧
      (run (List.replicate n input) s).loops = s.loops + n ∧
      (run (List.replicate n input) s).next_print = s.next_print := by
  induction n with
  | zero =>
    intro s _
    exact ⟨rfl, rfl, rfl⟩
  | succ n ih =>
    intro s hn
    have hw : wrapULong (s.loops + 1) = s.loops + 1 := by
      unfold wrapULong
      omega
    have hg : gateOpen input.2 s = false := by
      unfold gateOpen
      rw [hw]
      simp
      intro h
      omega
    obtain ⟨_, hnp, hl⟩ := loop_of_gateClosed input.1 input.2 s hg
    rw [hw, if_neg (by omega)] at hl
    obtain ⟨i1, i2, i3⟩ := ih (loop input.1 input.2 s) (by rw [hl]; omega)
    rw [List.replicate_succ]
    refine ⟨?_, ?_, ?_⟩
    · show (if gateOpen input.2 s then [input.2] else []) ++ _ = []
      rw [hg, i1]
      rfl
    · show (run (List.replicate n input) (loop input.1 input.2 s)).loops = _
      rw [i2, hl]
      omega
    · show (run (List.replicate n input) (loop input.1 input.2 s)).next_print = _
      rw [i3, hnp]

theorem passTimes_window (analogRead : Fin 4 → Int) (millis : Nat) (s : State)
    (h0 : s.loops = 0) :
    passTimes (window analogRead millis) s = (if s.next_print ≤ millis then [millis] else []) ∧
    (run (window analogRead millis) s).loops = 0 ∧
    (run (window analogRead millis) s).next_print =
      (if s.next_print ≤ millis then wrapULong (s.next_print + REPORT_INTERVAL)
       else s.next_print) := by
  have hw : window analogRead millis =
      List.replicate 9999 (analogRead, millis) ++ [(analogRead, millis)] := by
    unfold window
    rw [← List.replicate_succ']
  obtain ⟨i1, i2, i3⟩ := passTimes_replicate_idle (analogRead, millis) 9999 s (by omega)
  rw [hw, passTimes_append, run_append, i1]
  generalize run (List.replicate 9999 (analogRead, millis)) s = t at i2 i3
  rw [h0] at i2
  have hone : passTimes [(analogRead, millis)] t =
      (if gateOpen millis t then [millis] else []) := by
    show (if gateOpen millis t then [millis] else []) ++ [] = _
    rw [List.append_nil]
  have hrun : run [(analogRead, millis)] t = loop analogRead millis t := rfl
  have hgate : gateOpen millis t = decide (s.next_print ≤ millis) := by
    unfold gateOpen
    rw [i2, i3]
    rfl
  rw [hone, hrun, hgate, List.nil_append]
  by_cases hm : s.next_print ≤ millis
  · have hg : gateOpen millis t = true := by rw [hgate]; simpa using hm
    obtain ⟨_, hcyc⟩ := loop_of_gateOpen analogRead millis t hg
    rw [hcyc, (cycle_loops analogRead t).1, (cycle_loops analogRead t).2, i3]
    simp [hm]
  · have hg : gateOpen millis t = false := by rw [hgate]; simpa using hm
    obtain ⟨_, hnp, hl⟩ := loop_of_gateClosed analogRead millis t hg
    have hwrap : wrapULong (0 + 9999 + 1) = 10000 := rfl
    rw [hl, hnp, i2, i3, hwrap]
    simp [hm]

theorem pairwise_three_blocks (n a b c : Nat) (hab : a ≤ b) (hbc : b ≤ c) :
    List.Pairwise (fun x y => x ≤ y)
      (List.replicate n a ++ (List.replicate n b ++ List.replicate n c)) := by
  simp only [List.pairwise_append, List.pairwise_replicate, List.mem_replicate,
    List.mem_append]
  refine ⟨Or.inr (le_refl a), ⟨Or.inr (le_refl b), Or.inr (le_refl c), ?_⟩, ?_⟩
  · rintro x ⟨_, rfl⟩ y ⟨_, rfl⟩
    exact hbc
  · rintro x ⟨_, rfl⟩ y (⟨_, rfl⟩ | ⟨_, rfl⟩)
    · exact hab
    · omega

theorem clockNonDecreasing_evenWindows : clockNonDecreasing evenWindows := by
  unfold clockNonDecreasing evenWindows window
  rw [List.map_append, List.map_append, List.map_replicate, List.map_replicate,
    List.map_replicate]
  exact pairwise_three_blocks _ 4500 9000 13500 (by omega) (by omega)

theorem passTimes_evenWindows : passTimes evenWindows startup70 = [9000, 13500] := by
  have h0 : startup70.loops = 0 := by decide
  have hn0 : startup70.next_print = 5000 := by decide
  obtain ⟨a1, a2, a3⟩ := passTimes_window readsOff 4500 startup70 h0
  rw [hn0, if_neg (by omega)] at a1 a3
  obtain ⟨b1, b2, b3⟩ := passTimes_window readsOff 9000 _ a2
  rw [a3, if_pos (by omega)] at b1 b3
  have hb3 : (run (window readsOff 9000) (run (window readsOff 4500) startup70)).next_print =
      10000 := by rw [b3]; rfl
  obtain ⟨c1, _, _⟩ := passTimes_window readsOff 13500 _ b2
  rw [hb3, if_pos (by omega)] at c1
  unfold evenWindows
  rw [passTimes_append, passTimes_append, a1, b1, c1]
  rfl

/-- C16, as the claim states it, fails on `evenWindows`, a run from startup
whose clock never goes back and in which every 10000 calls of `loop` take
4500 ms: the report pass runs at 9000 ms and again at 13500 ms, 4500 ms
later. -/
theorem report_passes_closer_than_interval :
    clockNonDecreasing evenWindows ∧
    passTimes evenWindows startup70 = [9000, 13500] ∧
    13500 - 9000 < REPORT_INTERVAL :=
  ⟨clockNonDecreasing_evenWindows, passTimes_evenWindows, by decide⟩

/-- C16, amended: a call of `loop` runs the report pass only when it finds the
clock at or past the deadline `next_print`, and the pass moves the deadline
5000 ms further, not to the clock plus 5000; a call that does not run the
pass adds no effect and keeps the deadline; the deadline starts at the
initial clock reading plus 5000.  Hence, as long as the 32-bit deadline does
not wrap, the pass of rank `k` (from 0) of any run runs no earlier than the
deadline at the start of the run plus `5000 * k`. -/
theorem report_pass_deadline :
    (∀ (analogRead : Fin 4 → Int) (millis : Nat) (s : State), gateOpen millis s = true →
      s.next_print ≤ millis ∧
      loop analogRead millis s = cycle analogRead s ∧
      (loop analogRead millis s).next_print = wrapULong (s.next_print + REPORT_INTERVAL)) ∧
    (∀ (analogRead : Fin 4 → Int) (millis : Nat) (s : State), gateOpen millis s = false →
      (loop analogRead millis s).trace = s.trace ∧
      (loop analogRead millis s).next_print = s.next_print) ∧
    (∀ (inputs : List ((Fin 4 → Int) × Nat)) (s : State) (k t : Nat),
      (passTimes inputs s)[k]? = some t →
      s.next_print + REPORT_INTERVAL * k < 4294967296 →
      s.next_print + REPORT_INTERVAL * k ≤ t) ∧
    (∀ (loadState : Fin 4 → Nat) (millis0 : Nat),
      (before loadState (initial millis0)).next_print =
        wrapULong (millis0 + REPORT_INTERVAL)) := by
  refine ⟨?_, ?_, ?_, ?_⟩
  · intro analogRead millis s h
    obtain ⟨h1, h2⟩ := loop_of_gateOpen analogRead millis s h
    exact ⟨h1, h2, by rw [h2, (cycle_loops analogRead s).2]⟩
  · intro analogRead millis s h
    obtain ⟨h1, h2, _⟩ := loop_of_gateClosed analogRead millis s h
    exact ⟨h1, h2⟩
  · intro inputs s k t h hfit
    exact passTimes_deadline inputs s k t h hfit
  · intro loadState millis0
    simp [before, beforeChannel, initial]

/-- Witness of the amended C16: a call that runs the pass, a call that does
not, and the second pass of `evenWindows`. -/
theorem report_pass_deadline_witness :
    (gateDue.next_print ≤ 5000 ∧
      (loop readsOff 5000 gateDue).next_print =
        wrapULong (gateDue.next_print + REPORT_INTERVAL)) ∧
    ((loop readsOff 0 startup70).trace = startup70.trace ∧
      (loop readsOff 0 startup70).next_print = startup70.next_print) ∧
    startup70.next_print + REPORT_INTERVAL * 1 ≤ 13500 :=
  ⟨⟨(report_pass_deadline.1 readsOff 5000 gateDue (by decide)).1,
    (report_pass_deadline.1 readsOff 5000 gateDue (by decide)).2.2⟩,
   report_pass_deadline.2.1 readsOff 0 startup70 (by decide),
   report_pass_deadline.2.2.1 evenWindows startup70 1 13500
     (by rw [passTimes_evenWindows]; rfl) (by decide)⟩

end AlarmMonitor
